import Mathlib

/-!
Verification of the MAME/HBMAME Z180 CPU core (`src/devices/cpu/z180/z180.cpp`)
against its natural-language specification.

The development shallow-embeds the parts of the core the claims concern:
the startup flag tables built in `z180_device::device_start`, the internal
I/O register bank (`z180_readcontrol` / `z180_writecontrol`), the DMA
engine (`z180_dma0` / `z180_dma1`), the programmable reload timers
(`clock_timers`), the interrupt arbiter (`check_interrupts`), the reset
handler (`device_reset`), the NMI service prologue of `execute_run` and
the input-line latch of `execute_set_input`.

Machine integers are modelled as `Nat` with explicit masking where the C++
code relies on a fixed width.  Memory and the external I/O space are
modelled as functions `Nat → Nat`.
-/

namespace Z180

/-- Pointwise update of an address-indexed map, `m[a] := v`. -/
def upd {α : Type} (m : Nat → α) (a : Nat) (v : α) : Nat → α :=
  fun x => if x = a then v else m x

@[simp] theorem upd_same {α : Type} (m : Nat → α) (a : Nat) (v : α) : upd m a v a = v := by
  simp [upd]

theorem upd_other {α : Type} (m : Nat → α) (a : Nat) (v : α) (x : Nat) (h : x ≠ a) :
    upd m a v x = m x := by
  simp [upd, h]

/-! ## The startup flag tables (`device_start`, z180.cpp lines 1586-1635)

The generator loops over `(oldval, newval)` pairs; for ADD/ADC the table is
later indexed by `(first operand, 8-bit result)`, for SUB/SBC likewise.
Each entry function below transcribes one of the four generator blocks.
`val` is a C `int` that can go negative; only bit 7 of `val` is ever
consulted (through `& 0x80`), so it is modelled by the two's-complement
residue `mod 256`. -/

/-- Table entry for ADD/ADC without carry at `(oldval, newval)`
    (`device_start`, the `padd` block). -/
def szhvcAddEntry (oldval newval : Nat) : Nat :=
  let val : Nat := (newval + 512 - oldval) % 256
  let f := (if newval = 0 then 0x40 else if newval &&& 0x80 = 0x80 then 0x80 else 0)
             ||| (newval &&& 0x28)
  let f := if (newval &&& 0x0f) < (oldval &&& 0x0f) then f ||| 0x10 else f
  let f := if newval < oldval then f ||| 0x01 else f
  if (val ^^^ oldval ^^^ 0x80) &&& (val ^^^ newval) &&& 0x80 ≠ 0 then f ||| 0x04 else f

/-- Table entry for ADC with carry set at `(oldval, newval)`
    (`device_start`, the `padc` block). -/
def szhvcAdcEntry (oldval newval : Nat) : Nat :=
  let val : Nat := (newval + 512 - oldval - 1) % 256
  let f := (if newval = 0 then 0x40 else if newval &&& 0x80 = 0x80 then 0x80 else 0)
             ||| (newval &&& 0x28)
  let f := if (newval &&& 0x0f) ≤ (oldval &&& 0x0f) then f ||| 0x10 else f
  let f := if newval ≤ oldval then f ||| 0x01 else f
  if (val ^^^ oldval ^^^ 0x80) &&& (val ^^^ newval) &&& 0x80 ≠ 0 then f ||| 0x04 else f

/-- Table entry for CP/SUB/SBC without carry at `(oldval, newval)`
    (`device_start`, the `psub` block). -/
def szhvcSubEntry (oldval newval : Nat) : Nat :=
  let val : Nat := (oldval + 512 - newval) % 256
  let f := 0x02 ||| (if newval = 0 then 0x40 else if newval &&& 0x80 = 0x80 then 0x80 else 0)
  let f := f ||| (newval &&& 0x28)
  let f := if (newval &&& 0x0f) > (oldval &&& 0x0f) then f ||| 0x10 else f
  let f := if newval > oldval then f ||| 0x01 else f
  if (val ^^^ oldval) &&& (oldval ^^^ newval) &&& 0x80 ≠ 0 then f ||| 0x04 else f

/-- Table entry for SBC with carry set at `(oldval, newval)`
    (`device_start`, the `psbc` block). -/
def szhvcSbcEntry (oldval newval : Nat) : Nat :=
  let val : Nat := (oldval + 512 - newval - 1) % 256
  let f := 0x02 ||| (if newval = 0 then 0x40 else if newval &&& 0x80 = 0x80 then 0x80 else 0)
  let f := f ||| (newval &&& 0x28)
  let f := if (newval &&& 0x0f) ≥ (oldval &&& 0x0f) then f ||| 0x10 else f
  let f := if newval ≥ oldval then f ||| 0x01 else f
  if (val ^^^ oldval) &&& (oldval ^^^ newval) &&& 0x80 ≠ 0 then f ||| 0x04 else f

/-- The `SZHVC_add` array: `padd` occupies indices `0..0xFFFF`
    (index `oldval*256 + newval`), `padc` the next `0x10000` entries. -/
def SZHVC_add (i : Nat) : Nat :=
  if i < 65536 then szhvcAddEntry (i / 256) (i % 256)
  else szhvcAdcEntry (i / 256 - 256) (i % 256)

/-- The `SZHVC_sub` array: `psub` occupies indices `0..0xFFFF`,
    `psbc` the next `0x10000` entries. -/
def SZHVC_sub (i : Nat) : Nat :=
  if i < 65536 then szhvcSubEntry (i / 256) (i % 256)
  else szhvcSbcEntry (i / 256 - 256) (i % 256)

/-- Direct bit-level recomputation of the flags of `a + b + c` (`c` the
    incoming carry), following the spec: sign = bit 7 of the result, zero,
    half-carry out of bit 3, carry out of bit 7, two's-complement overflow,
    and flag bits 3 and 5 copied from result bits 3 and 5. -/
def specAddFlags (a b c : Nat) : Nat :=
  let r := (a + b + c) % 256
  (if r.testBit 7 then 0x80 else 0)
    ||| (if r = 0 then 0x40 else 0)
    ||| (r &&& 0x28)
    ||| (if (a &&& 0x0f) + (b &&& 0x0f) + c ≥ 0x10 then 0x10 else 0)
    ||| (if a + b + c ≥ 0x100 then 0x01 else 0)
    ||| (if a.testBit 7 = b.testBit 7 ∧ a.testBit 7 ≠ r.testBit 7 then 0x04 else 0)

/-- Direct bit-level recomputation of the flags of `a - b - c` (`c` the
    incoming borrow): the N flag, sign, zero, half-borrow, borrow,
    overflow, and flag bits 3 and 5 copied from the result. -/
def specSubFlags (a b c : Nat) : Nat :=
  let r := (a + 512 - b - c) % 256
  0x02
    ||| (if r = 0 then 0x40 else if r.testBit 7 then 0x80 else 0)
    ||| (r &&& 0x28)
    ||| (if (a &&& 0x0f) < (b &&& 0x0f) + c then 0x10 else 0)
    ||| (if a < b + c then 0x01 else 0)
    ||| (if a.testBit 7 ≠ b.testBit 7 ∧ a.testBit 7 ≠ r.testBit 7 then 0x04 else 0)

theorem land_fifteen (x : Nat) : x &&& 15 = x % 16 := by
  have h := Nat.and_pow_two_sub_one_eq_mod x 4
  norm_num at h
  exact h

theorem land_one28 (x : Nat) : x &&& 128 = (x.testBit 7).toNat * 128 := by
  have h := Nat.and_two_pow x 7
  norm_num at h
  exact h

theorem land_one28_eq_iff (x : Nat) : (x &&& 128 = 128) ↔ x.testBit 7 = true := by
  rw [land_one28]
  cases x.testBit 7 <;> simp

theorem land_one28_ne_zero_iff (x : Nat) : (x &&& 128 ≠ 0) ↔ x.testBit 7 = true := by
  rw [land_one28]
  cases x.testBit 7 <;> simp

theorem testBit7_lt256 (x : Nat) (h : x < 256) : x.testBit 7 = decide (128 ≤ x) := by
  rw [Nat.testBit_to_div_mod]
  rcases Nat.lt_or_ge x 128 with h1 | h1
  · have : x / 2 ^ 7 = 0 := by norm_num; omega
    simp [this]
    omega
  · have : x / 2 ^ 7 = 1 := by norm_num; omega
    simp [this]
    omega

/-- Overflow condition of the add generator, reduced to sign bits. -/
theorem add_overflow_cond (a b r : Nat) :
    ((b ^^^ a ^^^ 0x80) &&& (b ^^^ r) &&& 0x80 ≠ 0) ↔
      (a.testBit 7 = b.testBit 7 ∧ a.testBit 7 ≠ r.testBit 7) := by
  rw [land_one28_ne_zero_iff]
  simp only [Nat.testBit_and, Nat.testBit_xor]
  have h128 : Nat.testBit 0x80 7 = true := by decide
  rw [h128]
  cases a.testBit 7 <;> cases b.testBit 7 <;> cases r.testBit 7 <;> simp

/-- Overflow condition of the sub generator, reduced to sign bits. -/
theorem sub_overflow_cond (a b r : Nat) :
    ((b ^^^ a) &&& (a ^^^ r) &&& 0x80 ≠ 0) ↔
      (a.testBit 7 ≠ b.testBit 7 ∧ a.testBit 7 ≠ r.testBit 7) := by
  rw [land_one28_ne_zero_iff]
  simp only [Nat.testBit_and, Nat.testBit_xor]
  cases a.testBit 7 <;> cases b.testBit 7 <;> cases r.testBit 7 <;> simp

theorem add_entry_eq_spec (a b : Nat) (ha : a < 256) (hb : b < 256) :
    szhvcAddEntry a ((a + b) % 256) = specAddFlags a b 0 := by
  have hr : (a + b) % 256 < 256 := Nat.mod_lt _ (by omega)
  have hval : ((a + b) % 256 + 512 - a) % 256 = b := by omega
  unfold szhvcAddEntry specAddFlags
  simp only [hval, land_fifteen, land_one28_eq_iff]
  have hH : ((a + b) % 256 % 16 < a % 16) ↔ (a % 16 + b % 16 + 0 ≥ 16) := by omega
  have hC : ((a + b) % 256 < a) ↔ (a + b + 0 ≥ 256) := by omega
  have hz : ((a + b + 0) % 256) = (a + b) % 256 := by omega
  simp only [hz, add_overflow_cond a b ((a + b) % 256), hH, hC]
  by_cases h0 : (a + b) % 256 = 0
  · have ht : ((a + b) % 256).testBit 7 = false := by rw [h0]; decide
    simp [h0, ht] <;> (try (split_ifs <;> simp))
  · simp only [h0, if_false]
    by_cases h7 : ((a + b) % 256).testBit 7 = true
    · simp [h7] <;> (try (split_ifs <;> simp))
    · simp at h7
      simp [h7] <;> (try (split_ifs <;> simp))

theorem adc_entry_eq_spec (a b : Nat) (ha : a < 256) (hb : b < 256) :
    szhvcAdcEntry a ((a + b + 1) % 256) = specAddFlags a b 1 := by
  have hr : (a + b + 1) % 256 < 256 := Nat.mod_lt _ (by omega)
  have hval : ((a + b + 1) % 256 + 512 - a - 1) % 256 = b := by omega
  unfold szhvcAdcEntry specAddFlags
  simp only [hval, land_fifteen, land_one28_eq_iff]
  have hH : ((a + b + 1) % 256 % 16 ≤ a % 16) ↔ (a % 16 + b % 16 + 1 ≥ 16) := by omega
  have hC : ((a + b + 1) % 256 ≤ a) ↔ (a + b + 1 ≥ 256) := by omega
  simp only [add_overflow_cond a b ((a + b + 1) % 256), hH, hC]
  by_cases h0 : (a + b + 1) % 256 = 0
  · have ht : ((a + b + 1) % 256).testBit 7 = false := by rw [h0]; decide
    simp [h0, ht] <;> (try (split_ifs <;> simp))
  · simp only [h0, if_false]
    by_cases h7 : ((a + b + 1) % 256).testBit 7 = true
    · simp [h7] <;> (try (split_ifs <;> simp))
    · simp at h7
      simp [h7] <;> (try (split_ifs <;> simp))

theorem sub_entry_eq_spec (a b : Nat) (ha : a < 256) (hb : b < 256) :
    szhvcSubEntry a ((a + 512 - b) % 256) = specSubFlags a b 0 := by
  have hr : (a + 512 - b) % 256 < 256 := Nat.mod_lt _ (by omega)
  have hval : (a + 512 - (a + 512 - b) % 256) % 256 = b := by omega
  unfold szhvcSubEntry specSubFlags
  simp only [hval, land_fifteen, land_one28_eq_iff]
  have hH : (a % 16 < (a + 512 - b) % 256 % 16) ↔ (a % 16 < b % 16 + 0) := by omega
  have hC : (a < (a + 512 - b) % 256) ↔ (a < b + 0) := by omega
  have hz : ((a + 512 - b - 0) % 256) = (a + 512 - b) % 256 := by omega
  simp only [hz, sub_overflow_cond a b ((a + 512 - b) % 256), gt_iff_lt, hH, hC]
  by_cases h0 : (a + 512 - b) % 256 = 0
  · simp [h0] <;> (try (split_ifs <;> simp))
  · simp only [h0, if_false]
    by_cases h7 : ((a + 512 - b) % 256).testBit 7 = true
    · simp [h7] <;> (try (split_ifs <;> simp))
    · simp at h7
      simp [h7] <;> (try (split_ifs <;> simp))

theorem sbc_entry_eq_spec (a b : Nat) (ha : a < 256) (hb : b < 256) :
    szhvcSbcEntry a ((a + 512 - b - 1) % 256) = specSubFlags a b 1 := by
  have hr : (a + 512 - b - 1) % 256 < 256 := Nat.mod_lt _ (by omega)
  have hval : (a + 512 - (a + 512 - b - 1) % 256 - 1) % 256 = b := by omega
  unfold szhvcSbcEntry specSubFlags
  simp only [hval, land_fifteen, land_one28_eq_iff]
  have hH : (a % 16 ≤ (a + 512 - b - 1) % 256 % 16) ↔ (a % 16 < b % 16 + 1) := by omega
  have hC : ((a + 512 - b - 1) % 256 ≥ a) ↔ (a < b + 1) := by omega
  simp only [sub_overflow_cond a b ((a + 512 - b - 1) % 256), ge_iff_le, hH, hC]
  by_cases h0 : (a + 512 - b - 1) % 256 = 0
  · simp [h0] <;> (try (split_ifs <;> simp))
  · simp only [h0, if_false]
    by_cases h7 : ((a + 512 - b - 1) % 256).testBit 7 = true
    · simp [h7] <;> (try (split_ifs <;> simp))
    · simp at h7
      simp [h7] <;> (try (split_ifs <;> simp))

/-- C1: for every pair of 8-bit values `a` and `b`, the precomputed
`SZHVC_add`/`SZHVC_sub` startup tables, looked up at the index the
ADD/ADC/SUB/SBC handlers use (`first operand * 256 + 8-bit result`, plus
`0x10000` when the incoming carry is set), hold exactly the flags of a
direct bit-level recomputation of sign, zero, half-carry, overflow and
carry, with flag bits 3 and 5 equal to bits 3 and 5 of the result. -/
theorem C1_flag_tables (a b : Nat) (ha : a < 256) (hb : b < 256) :
    SZHVC_add (a * 256 + (a + b) % 256) = specAddFlags a b 0 ∧
    SZHVC_add (0x10000 + a * 256 + (a + b + 1) % 256) = specAddFlags a b 1 ∧
    SZHVC_sub (a * 256 + (a + 512 - b) % 256) = specSubFlags a b 0 ∧
    SZHVC_sub (0x10000 + a * 256 + (a + 512 - b - 1) % 256) = specSubFlags a b 1 := by
  refine ⟨?_, ?_, ?_, ?_⟩
  · have h1 : a * 256 + (a + b) % 256 < 65536 := by omega
    have h2 : (a * 256 + (a + b) % 256) / 256 = a := by omega
    have h3 : (a * 256 + (a + b) % 256) % 256 = (a + b) % 256 := by omega
    rw [SZHVC_add, if_pos h1, h2, h3]
    exact add_entry_eq_spec a b ha hb
  · have h1 : ¬ 0x10000 + a * 256 + (a + b + 1) % 256 < 65536 := by omega
    have h2 : (0x10000 + a * 256 + (a + b + 1) % 256) / 256 - 256 = a := by omega
    have h3 : (0x10000 + a * 256 + (a + b + 1) % 256) % 256 = (a + b + 1) % 256 := by omega
    rw [SZHVC_add, if_neg h1, h2, h3]
    exact adc_entry_eq_spec a b ha hb
  · have h1 : a * 256 + (a + 512 - b) % 256 < 65536 := by omega
    have h2 : (a * 256 + (a + 512 - b) % 256) / 256 = a := by omega
    have h3 : (a * 256 + (a + 512 - b) % 256) % 256 = (a + 512 - b) % 256 := by omega
    rw [SZHVC_sub, if_pos h1, h2, h3]
    exact sub_entry_eq_spec a b ha hb
  · have h1 : ¬ 0x10000 + a * 256 + (a + 512 - b - 1) % 256 < 65536 := by omega
    have h2 : (0x10000 + a * 256 + (a + 512 - b - 1) % 256) / 256 - 256 = a := by omega
    have h3 : (0x10000 + a * 256 + (a + 512 - b - 1) % 256) % 256 = (a + 512 - b - 1) % 256 := by omega
    rw [SZHVC_sub, if_neg h1, h2, h3]
    exact sbc_entry_eq_spec a b ha hb

/-- Witness for C1 at the concrete operand pair `(0x83, 0x94)`. -/
theorem C1_flag_tables_witness :
    SZHVC_add (0x83 * 256 + (0x83 + 0x94) % 256) = specAddFlags 0x83 0x94 0 ∧
    SZHVC_add (0x10000 + 0x83 * 256 + (0x83 + 0x94 + 1) % 256) = specAddFlags 0x83 0x94 1 ∧
    SZHVC_sub (0x83 * 256 + (0x83 + 512 - 0x94) % 256) = specSubFlags 0x83 0x94 0 ∧
    SZHVC_sub (0x10000 + 0x83 * 256 + (0x83 + 512 - 0x94 - 1) % 256) = specSubFlags 0x83 0x94 1 :=
  C1_flag_tables 0x83 0x94 (by norm_num) (by norm_num)


/-! ## Device state

One structure holding the fields of `z180_device` that the claims concern.
`mem` is the 20-bit physical program space, `iospace` the external 16-bit
I/O space; `ioReads` records the ports of the external reads performed by
`z180_readcontrol` (the observable effect of `m_iospace->read_byte`).
`mwait` abstracts `memory_wait_states()`, whose definition lives in the
external wait-state policy. -/

structure State where
  PC : Nat := 0
  SP : Nat := 0
  AF : Nat := 0
  IX : Nat := 0
  IY : Nat := 0
  IFF1 : Bool := false
  IFF2 : Bool := false
  HALT : Bool := false
  nmi_state : Bool := false
  nmi_pending : Bool := false
  irq0 : Bool := false
  irq1 : Bool := false
  irq2 : Bool := false
  int_pending : Nat → Bool := fun _ => false
  after_EI : Bool := false
  iol : Nat := 0
  icount : Int := 0
  timer_cnt : Nat := 0
  tmdr_value0 : Nat := 0
  tmdr_value1 : Nat := 0
  tmdr0 : Nat := 0
  tmdr1 : Nat := 0
  rldr0 : Nat := 0xffff
  rldr1 : Nat := 0xffff
  tcr : Nat := 0
  tmdrh0 : Nat := 0
  tmdrh1 : Nat := 0
  tmdr_latch : Nat := 0
  read_tcr_tmdr0 : Bool := false
  read_tcr_tmdr1 : Bool := false
  frc : Nat := 0
  asci_cntla0 : Nat := 0
  asci_cntla1 : Nat := 0
  asci_cntlb0 : Nat := 0
  asci_cntlb1 : Nat := 0
  asci_stat0 : Nat := 0
  asci_stat1 : Nat := 0
  asci_tdr0 : Nat := 0
  asci_tdr1 : Nat := 0
  asci_rdr0 : Nat := 0
  asci_rdr1 : Nat := 0
  asci_ext0 : Nat := 0
  asci_ext1 : Nat := 0
  asci_tc0 : Nat := 0
  asci_tc1 : Nat := 0
  csio_cntr : Nat := 0
  csio_trdr : Nat := 0
  cmr : Nat := 0
  ccr : Nat := 0
  dma_sar0 : Nat := 0
  dma_dar0 : Nat := 0
  dma_bcr0 : Nat := 0
  dma_mar1 : Nat := 0
  dma_iar1 : Nat := 0
  dma_bcr1 : Nat := 0
  dstat : Nat := 0
  dmode : Nat := 0
  dcntl : Nat := 0
  il : Nat := 0
  itc : Nat := 0
  rcr : Nat := 0
  mmu_cbr : Nat := 0
  mmu_bbr : Nat := 0
  mmu_cbar : Nat := 0
  omcr : Nat := 0
  iocr : Nat := 0
  mem : Nat → Nat := fun _ => 0
  iospace : Nat → Nat := fun _ => 0
  ioReads : List Nat := []
  mwait : Nat := 0

/-- Modelled from the spec: the MMU translation `MMU_REMAP_ADDR`/`z180_mmu`
(defined in `z180ops.h`, which is not among the sources).  Per the spec, the
16-bit logical space is split at the CBAR page split point: pages below the
split belong to the bank area and are offset by `BBR << 12`, pages at or
above it to the common area offset by `CBR << 12`; the result is a 20-bit
physical address. -/
def translate (s : State) (addr : Nat) : Nat :=
  if (addr >>> 12) &&& 0x0f < (s.mmu_cbar >>> 4) &&& 0x0f
  then (addr + (s.mmu_bbr <<< 12)) % 0x100000
  else (addr + (s.mmu_cbr <<< 12)) % 0x100000

/-! ## Internal I/O register bank (`z180_readcontrol` / `z180_writecontrol`)

`wcInternal`/`rcInternal` are the `switch (port)` bodies dispatching on the
(possibly remapped) port; the wrappers below add the external access and
the IOCR remap.  The C++ `data` parameter is `uint8_t`, modelled by
masking the argument to a byte on entry. -/

/-- The `switch (port)` body of `z180_writecontrol` (z180.cpp 883-1229). -/
def wcInternal (s : State) (port d : Nat) : State :=
  let data := d &&& 0xff
  if port = 0x00 then {s with asci_cntla0 := data}
  else if port = 0x01 then {s with asci_cntla1 := data}
  else if port = 0x02 then {s with asci_cntlb0 := data}
  else if port = 0x03 then {s with asci_cntlb1 := data}
  else if port = 0x04 then {s with asci_stat0 := (s.asci_stat0 &&& 0xf6) ||| (data &&& 0x09)}
  else if port = 0x05 then {s with asci_stat1 := (s.asci_stat1 &&& 0xf2) ||| (data &&& 0x0d)}
  else if port = 0x06 then {s with asci_tdr0 := data}
  else if port = 0x07 then {s with asci_tdr1 := data}
  else if port = 0x08 then {s with asci_rdr0 := data}
  else if port = 0x09 then {s with asci_rdr1 := data}
  else if port = 0x0a then {s with csio_cntr := (s.csio_cntr &&& 0xb0) ||| (data &&& 0x4f)}
  else if port = 0x0b then {s with csio_trdr := data}
  else if port = 0x0c then
    {s with tmdr0 := (s.tmdr0 &&& 0xff00) ||| data,
            tmdr_value0 := (s.tmdr_value0 &&& 0xff00) ||| data}
  else if port = 0x0d then
    {s with tmdr0 := (s.tmdr0 &&& 0x00ff) ||| (data <<< 8),
            tmdr_value0 := (s.tmdr_value0 &&& 0x00ff) ||| (data <<< 8)}
  else if port = 0x0e then {s with rldr0 := (s.rldr0 &&& 0xff00) ||| data}
  else if port = 0x0f then {s with rldr0 := (s.rldr0 &&& 0x00ff) ||| (data <<< 8)}
  else if port = 0x10 then
    let old := s.tcr
    let tcr1 := (s.tcr &&& 0xc0) ||| (data &&& 0x3f)
    let s2 : State := {s with tcr := tcr1}
    let s3 : State :=
      if old &&& 0x01 = 0 ∧ tcr1 &&& 0x01 ≠ 0 then {s2 with tmdr_value0 := 0} else s2
    if old &&& 0x02 = 0 ∧ tcr1 &&& 0x02 ≠ 0 then {s3 with tmdr_value1 := 0} else s3
  else if port = 0x11 then s
  else if port = 0x12 then {s with asci_ext0 := (s.asci_ext0 &&& 0x02) ||| (data &&& 0x7d)}
  else if port = 0x13 then {s with asci_ext1 := (s.asci_ext1 &&& 0x02) ||| (data &&& 0x1d)}
  else if port = 0x14 then
    {s with tmdr1 := (s.tmdr1 &&& 0xff00) ||| data,
            tmdr_value1 := (s.tmdr_value1 &&& 0xff00) ||| data}
  else if port = 0x15 then
    {s with tmdr1 := (s.tmdr1 &&& 0x00ff) ||| (data <<< 8),
            tmdr_value1 := (s.tmdr_value1 &&& 0x00ff) ||| data}
  else if port = 0x16 then {s with rldr1 := (s.rldr1 &&& 0xff00) ||| data}
  else if port = 0x17 then {s with rldr1 := (s.rldr1 &&& 0x00ff) ||| (data <<< 8)}
  else if port = 0x18 then s
  else if port = 0x19 then s
  else if port = 0x1a then {s with asci_tc0 := (s.asci_tc0 &&& 0xff00) ||| data}
  else if port = 0x1b then {s with asci_tc0 := (s.asci_tc0 &&& 0x00ff) ||| (data <<< 8)}
  else if port = 0x1c then {s with asci_tc1 := (s.asci_tc1 &&& 0xff00) ||| data}
  else if port = 0x1d then {s with asci_tc1 := (s.asci_tc1 &&& 0x00ff) ||| (data <<< 8)}
  else if port = 0x1e then {s with cmr := data &&& 0xc0}
  else if port = 0x1f then {s with ccr := data}
  else if port = 0x20 then {s with dma_sar0 := (s.dma_sar0 &&& 0xffffff00) ||| data}
  else if port = 0x21 then {s with dma_sar0 := (s.dma_sar0 &&& 0xffff00ff) ||| (data <<< 8)}
  else if port = 0x22 then {s with dma_sar0 := (s.dma_sar0 &&& 0xff00ffff) ||| ((data &&& 0x0f) <<< 16)}
  else if port = 0x23 then {s with dma_dar0 := (s.dma_dar0 &&& 0xffffff00) ||| data}
  else if port = 0x24 then {s with dma_dar0 := (s.dma_dar0 &&& 0xffff00ff) ||| (data <<< 8)}
  else if port = 0x25 then {s with dma_dar0 := (s.dma_dar0 &&& 0xff00ffff) ||| ((data &&& 0x0f) <<< 16)}
  else if port = 0x26 then {s with dma_bcr0 := (s.dma_bcr0 &&& 0xff00) ||| data}
  else if port = 0x27 then {s with dma_bcr0 := (s.dma_bcr0 &&& 0x00ff) ||| (data <<< 8)}
  else if port = 0x28 then {s with dma_mar1 := (s.dma_mar1 &&& 0xffffff00) ||| data}
  else if port = 0x29 then {s with dma_mar1 := (s.dma_mar1 &&& 0xffff00ff) ||| (data <<< 8)}
  else if port = 0x2a then {s with dma_mar1 := (s.dma_mar1 &&& 0xff00ffff) ||| ((data &&& 0x0f) <<< 16)}
  else if port = 0x2b then {s with dma_iar1 := (s.dma_iar1 &&& 0xffffff00) ||| data}
  else if port = 0x2c then {s with dma_iar1 := (s.dma_iar1 &&& 0xffff00ff) ||| (data <<< 8)}
  else if port = 0x2d then {s with dma_iar1 := (s.dma_iar1 &&& 0xff00ffff) ||| ((data &&& 0xcf) <<< 16)}
  else if port = 0x2e then {s with dma_bcr1 := (s.dma_bcr1 &&& 0xff00) ||| data}
  else if port = 0x2f then {s with dma_bcr1 := (s.dma_bcr1 &&& 0x00ff) ||| (data <<< 8)}
  else if port = 0x30 then
    let dstat1 := (s.dstat &&& 0x01) ||| (data &&& 0xfd &&& 0xfe)
    let dstat2 := if data &&& 0xa0 = 0x80 then dstat1 ||| 0x01 else dstat1
    let dstat3 := if data &&& 0x50 = 0x40 then dstat2 ||| 0x01 else dstat2
    {s with dstat := dstat3}
  else if port = 0x31 then {s with dmode := data &&& 0x3e}
  else if port = 0x32 then {s with dcntl := data}
  else if port = 0x33 then {s with il := data &&& 0xe0}
  else if port = 0x34 then {s with itc := (s.itc &&& 0x40) ||| (data &&& 0x87)}
  else if port = 0x35 then s
  else if port = 0x36 then {s with rcr := data &&& 0xc3}
  else if port = 0x37 then s
  else if port = 0x38 then {s with mmu_cbr := data}
  else if port = 0x39 then {s with mmu_bbr := data}
  else if port = 0x3a then {s with mmu_cbar := data}
  else if port = 0x3b then s
  else if port = 0x3c then s
  else if port = 0x3d then s
  else if port = 0x3e then {s with omcr := data &&& 0xe0}
  else if port = 0x3f then {s with iocr := data &&& 0xe0}
  else s

/-- The `switch (port)` body of `z180_readcontrol` (z180.cpp 455-868);
`ext` is the value the preceding external read produced. -/
def rcInternal (s : State) (port ext : Nat) : Nat × State :=
  if port = 0x00 then (s.asci_cntla0, s)
  else if port = 0x01 then (s.asci_cntla1, s)
  else if port = 0x02 then (s.asci_cntlb0, s)
  else if port = 0x03 then (s.asci_cntlb1, s)
  else if port = 0x04 then (s.asci_stat0 ||| 0x02, s)
  else if port = 0x05 then (s.asci_stat1, s)
  else if port = 0x06 then (s.asci_tdr0, s)
  else if port = 0x07 then (s.asci_tdr1, s)
  else if port = 0x08 then (s.asci_rdr0, s)
  else if port = 0x09 then (s.asci_rdr1, s)
  else if port = 0x0a then (s.csio_cntr ||| 0x08, s)
  else if port = 0x0b then (s.csio_trdr, s)
  else if port = 0x0c then
    let data := s.tmdr_value0 &&& 0x00ff
    let s1 : State :=
      if s.tcr &&& 0x01 = 0 then
        {s with tmdr_latch := s.tmdr_latch ||| 0x01,
                tmdrh0 := (s.tmdr_value0 &&& 0xff00) >>> 8}
      else s
    let s2 : State :=
      if s1.read_tcr_tmdr0 then {s1 with tcr := s1.tcr &&& 0xbf, read_tcr_tmdr0 := false}
      else {s1 with read_tcr_tmdr0 := true}
    (data, s2)
  else if port = 0x0d then
    let p : Nat × State :=
      if s.tmdr_latch &&& 0x01 ≠ 0 then
        ((s.tmdrh0 : Nat), {s with tmdr_latch := s.tmdr_latch &&& 0xfe})
      else ((s.tmdr_value0 &&& 0xff00) >>> 8, s)
    let s1 := p.2
    let s2 := if s1.read_tcr_tmdr0 then {s1 with tcr := s1.tcr &&& 0xbf, read_tcr_tmdr0 := false}
              else {s1 with read_tcr_tmdr0 := true}
    (p.1, s2)
  else if port = 0x0e then (s.rldr0 &&& 0xff, s)
  else if port = 0x0f then ((s.rldr0 >>> 8) &&& 0xff, s)
  else if port = 0x10 then
    let data := s.tcr
    let s1 : State :=
      if s.read_tcr_tmdr0 then {s with tcr := s.tcr &&& 0xbf, read_tcr_tmdr0 := false}
      else {s with read_tcr_tmdr0 := true}
    let s2 : State :=
      if s1.read_tcr_tmdr1 then {s1 with tcr := s1.tcr &&& 0x7f, read_tcr_tmdr1 := false}
      else {s1 with read_tcr_tmdr1 := true}
    (data, s2)
  else if port = 0x11 then (0xff, s)
  else if port = 0x12 then (s.asci_ext0, s)
  else if port = 0x13 then (s.asci_ext1, s)
  else if port = 0x14 then
    let data := s.tmdr_value1 &&& 0xff
    let s1 : State :=
      if s.tcr &&& 0x02 = 0 then
        {s with tmdr_latch := s.tmdr_latch ||| 0x02,
                tmdrh1 := (s.tmdr_value1 &&& 0xff00) >>> 8}
      else s
    let s2 : State :=
      if s1.read_tcr_tmdr1 then {s1 with tcr := s1.tcr &&& 0x7f, read_tcr_tmdr1 := false}
      else {s1 with read_tcr_tmdr1 := true}
    (data, s2)
  else if port = 0x15 then
    let p : Nat × State :=
      if s.tmdr_latch &&& 0x02 ≠ 0 then
        ((s.tmdrh1 : Nat), {s with tmdr_latch := s.tmdr_latch &&& 0xfd})
      else ((s.tmdr_value1 &&& 0xff00) >>> 8, s)
    let s1 := p.2
    let s2 := if s1.read_tcr_tmdr1 then {s1 with tcr := s1.tcr &&& 0x7f, read_tcr_tmdr1 := false}
              else {s1 with read_tcr_tmdr1 := true}
    (p.1, s2)
  else if port = 0x16 then (s.rldr1 &&& 0xff, s)
  else if port = 0x17 then ((s.rldr1 >>> 8) &&& 0xff, s)
  else if port = 0x18 then (s.frc, s)
  else if port = 0x19 then (0xff, s)
  else if port = 0x1a then (s.asci_tc0 &&& 0xff, s)
  else if port = 0x1b then ((s.asci_tc0 >>> 8) &&& 0xff, s)
  else if port = 0x1c then (s.asci_tc1 &&& 0xff, s)
  else if port = 0x1d then ((s.asci_tc1 >>> 8) &&& 0xff, s)
  else if port = 0x1e then (s.cmr ||| 0x3f, s)
  else if port = 0x1f then (s.ccr, s)
  else if port = 0x20 then (s.dma_sar0 &&& 0xff, s)
  else if port = 0x21 then ((s.dma_sar0 >>> 8) &&& 0xff, s)
  else if port = 0x22 then (((s.dma_sar0 >>> 16) &&& 0xff) &&& 0x0f, s)
  else if port = 0x23 then (s.dma_dar0 &&& 0xff, s)
  else if port = 0x24 then ((s.dma_dar0 >>> 8) &&& 0xff, s)
  else if port = 0x25 then (((s.dma_dar0 >>> 16) &&& 0xff) &&& 0x0f, s)
  else if port = 0x26 then (s.dma_bcr0 &&& 0xff, s)
  else if port = 0x27 then ((s.dma_bcr0 >>> 8) &&& 0xff, s)
  else if port = 0x28 then (s.dma_mar1 &&& 0xff, s)
  else if port = 0x29 then ((s.dma_mar1 >>> 8) &&& 0xff, s)
  else if port = 0x2a then (((s.dma_mar1 >>> 16) &&& 0xff) &&& 0x0f, s)
  else if port = 0x2b then (s.dma_iar1 &&& 0xff, s)
  else if port = 0x2c then ((s.dma_iar1 >>> 8) &&& 0xff, s)
  else if port = 0x2d then (((s.dma_iar1 >>> 16) &&& 0xff) &&& 0xcf, s)
  else if port = 0x2e then (s.dma_bcr1 &&& 0xff, s)
  else if port = 0x2f then ((s.dma_bcr1 >>> 8) &&& 0xff, s)
  else if port = 0x30 then (s.dstat ||| 0x02, s)
  else if port = 0x31 then (s.dmode ||| 0xc1, s)
  else if port = 0x32 then (s.dcntl, s)
  else if port = 0x33 then (s.il &&& 0xe0, s)
  else if port = 0x34 then (s.itc ||| 0x38, s)
  else if port = 0x35 then (0xff, s)
  else if port = 0x36 then (s.rcr ||| 0x3c, s)
  else if port = 0x37 then (0xff, s)
  else if port = 0x38 then (s.mmu_cbr, s)
  else if port = 0x39 then (s.mmu_bbr, s)
  else if port = 0x3a then (s.mmu_cbar, s)
  else if port = 0x3b then (0xff, s)
  else if port = 0x3c then (0xff, s)
  else if port = 0x3d then (0xff, s)
  else if port = 0x3e then (s.omcr ||| 0x5f, s)
  else if port = 0x3f then (s.iocr ||| 0x1f, s)
  else (ext, s)

/-- IOCR-based remap of an I/O port onto the internal register window
(z180.cpp 451-452 and 879-880). -/
def remapPort (iocr port : Nat) : Nat :=
  if port &&& (iocr &&& 0xc0) = iocr &&& 0xc0 then port - (iocr &&& 0xc0) else port

/-- `z180_readcontrol`: external read first (logged in `ioReads`), then the
IOCR remap, then the internal register bank may override the data. -/
def z180_readcontrol (s : State) (port : Nat) : Nat × State :=
  let data := s.iospace port
  let s1 : State := {s with ioReads := port :: s.ioReads}
  rcInternal s1 (remapPort s1.iocr port) data

/-- `z180_writecontrol`: external write first, then the IOCR remap, then
the internal register bank stores the (masked) data. -/
def z180_writecontrol (s : State) (port d : Nat) : State :=
  let s1 : State := {s with iospace := upd s.iospace port (d &&& 0xff)}
  wcInternal s1 (remapPort s1.iocr port) d


/-! ## DMA engine (`z180_dma0` / `z180_dma1`, z180.cpp 1232-1454)

`inc32` and `dec32` model the post-increment and post-decrement of the 32-bit local
address variables.  `IN`/`OUT` of `z180ops.h` are not among the sources;
per the spec the I/O-side transfers access the external I/O space, so they
are modelled as direct `iospace` accesses.  `memory_wait_states()` is the
external wait-state policy, abstracted by the `mwait` field. -/

def inc32 (a : Nat) : Nat := (a + 1) % 0x100000000

def dec32 (a : Nat) : Nat := (a + 0xffffffff) % 0x100000000

/-- One pass of the `switch` in the `z180_dma0` loop body: returns the new
state, `sar0`, `dar0`, `bcr0`, the wait-state cycles this pass added, and
whether the edge-sensitive DREQ0 logic forced `count = 0`. -/
def dma0iter (s : State) (sar dar bcr : Nat) : State × Nat × Nat × Nat × Nat × Bool :=
  let md := s.dmode &&& 0x3c
  if md = 0x00 then
    ({s with mem := upd s.mem dar (s.mem sar)}, inc32 sar, inc32 dar, bcr - 1, 2 * s.mwait, false)
  else if md = 0x04 then
    ({s with mem := upd s.mem dar (s.mem sar)}, dec32 sar, inc32 dar, bcr - 1, 2 * s.mwait, false)
  else if md = 0x08 then
    ({s with mem := upd s.mem dar (s.mem sar)}, sar, inc32 dar, bcr - 1, 2 * s.mwait, false)
  else if md = 0x0c then
    if s.iol &&& 0x800 ≠ 0 then
      let s1 := {s with mem := upd s.mem dar (s.iospace sar)}
      if s1.dcntl &&& 0x04 ≠ 0 then
        ({s1 with iol := s1.iol &&& 0xfffff7ff}, sar, inc32 dar, bcr - 1, s.mwait, true)
      else (s1, sar, inc32 dar, bcr - 1, s.mwait, false)
    else (s, sar, dar, bcr, 0, false)
  else if md = 0x10 then
    ({s with mem := upd s.mem dar (s.mem sar)}, inc32 sar, dec32 dar, bcr - 1, 2 * s.mwait, false)
  else if md = 0x14 then
    ({s with mem := upd s.mem dar (s.mem sar)}, dec32 sar, dec32 dar, bcr - 1, 2 * s.mwait, false)
  else if md = 0x18 then
    ({s with mem := upd s.mem dar (s.mem sar)}, sar, dec32 dar, bcr - 1, 2 * s.mwait, false)
  else if md = 0x1c then
    if s.iol &&& 0x800 ≠ 0 then
      let s1 := {s with mem := upd s.mem dar (s.iospace sar)}
      if s1.dcntl &&& 0x04 ≠ 0 then
        ({s1 with iol := s1.iol &&& 0xfffff7ff}, sar, dec32 dar, bcr - 1, s.mwait, true)
      else (s1, sar, dec32 dar, bcr - 1, s.mwait, false)
    else (s, sar, dar, bcr, 0, false)
  else if md = 0x20 then
    ({s with mem := upd s.mem dar (s.mem sar)}, inc32 sar, dar, bcr - 1, 2 * s.mwait, false)
  else if md = 0x24 then
    ({s with mem := upd s.mem dar (s.mem sar)}, dec32 sar, dar, bcr - 1, 2 * s.mwait, false)
  else if md = 0x30 then
    if s.iol &&& 0x800 ≠ 0 then
      let s1 := {s with iospace := upd s.iospace dar (s.mem sar)}
      if s1.dcntl &&& 0x04 ≠ 0 then
        ({s1 with iol := s1.iol &&& 0xfffff7ff}, inc32 sar, dar, bcr - 1, s.mwait, true)
      else (s1, inc32 sar, dar, bcr - 1, s.mwait, false)
    else (s, sar, dar, bcr, 0, false)
  else if md = 0x34 then
    if s.iol &&& 0x800 ≠ 0 then
      let s1 := {s with iospace := upd s.iospace dar (s.mem sar)}
      if s1.dcntl &&& 0x04 ≠ 0 then
        ({s1 with iol := s1.iol &&& 0xfffff7ff}, dec32 sar, dar, bcr - 1, s.mwait, true)
      else (s1, dec32 sar, dar, bcr - 1, s.mwait, false)
    else (s, sar, dar, bcr, 0, false)
  else
    (s, sar, dar, bcr, 0, false)

/-- The `while (count > 0)` loop of `z180_dma0`, recursing on the remaining
`count` (which the C++ decrements every iteration); the accumulated cycles
are compared against the caller budget after each iteration. -/
def dma0go : Nat → State → Nat → Nat → Nat → Nat → Int → State × Nat × Nat × Nat × Nat
  | 0, s, sar, dar, bcr, cyc, _ => (s, sar, dar, bcr, cyc)
  | n + 1, s, sar, dar, bcr, cyc, maxc =>
    let s0 : State := if bcr = 1 then {s with iol := s.iol ||| 0x20000} else s
    let r := dma0iter s0 sar dar bcr
    let cyc1 := cyc + r.2.2.2.2.1 + 6
    if (cyc1 : Int) > maxc then (r.1, r.2.1, r.2.2.1, r.2.2.2.1, cyc1)
    else if r.2.2.2.2.2 then (r.1, r.2.1, r.2.2.1, r.2.2.2.1, cyc1)
    else dma0go n r.1 r.2.1 r.2.2.1 r.2.2.2.1 cyc1 maxc

/-- `z180_dma0(max_cycles)`: returns the final state and the cycles
consumed. -/
def z180_dma0 (s : State) (maxCycles : Int) : State × Nat :=
  let bcr0 := if s.dma_bcr0 = 0 then 0x10000 else s.dma_bcr0
  let count := if s.dmode &&& 0x02 ≠ 0 then bcr0 else 1
  if s.dstat &&& 0x40 = 0 then (s, 0)
  else
    let r := dma0go count s s.dma_sar0 s.dma_dar0 bcr0 0 maxCycles
    let s1 := {r.1 with dma_sar0 := r.2.1, dma_dar0 := r.2.2.1,
                        dma_bcr0 := r.2.2.2.1 &&& 0xffff}
    let s4 : State :=
      if r.2.2.2.1 = 0 then
        let s2 : State := {s1 with iol := s1.iol &&& 0xfffdffff, dstat := s1.dstat &&& 0xbf}
        if s2.dstat &&& 0x04 ≠ 0 ∧ s2.IFF1 = true then
          {s2 with int_pending := upd s2.int_pending 7 true}
        else s2
      else s1
    (s4, r.2.2.2.2)

/-- `z180_dma1()`: one byte at most per dispatch; note that this source
never decrements `bcr1`, it only stores the zero-adjusted value back
(truncated to 16 bits). -/
def z180_dma1 (s : State) : State × Nat :=
  let mar1 := s.dma_mar1
  let iar1 := s.dma_iar1 &&& 0xffff
  let bcr1 := if s.dma_bcr1 = 0 then 0x10000 else s.dma_bcr1
  if s.iol &&& 0x1000 = 0 then (s, 0)
  else if s.dstat &&& 0x80 = 0 then (s, 0)
  else
    let s : State := if bcr1 = 1 then {s with iol := s.iol ||| 0x40000} else s
    let md := s.dcntl &&& 0x03
    let p : State × Nat :=
      if md = 0x00 then ({s with iospace := upd s.iospace iar1 (s.mem mar1)}, inc32 mar1)
      else if md = 0x01 then ({s with iospace := upd s.iospace iar1 (s.mem mar1)}, dec32 mar1)
      else if md = 0x02 then ({s with mem := upd s.mem mar1 (s.iospace iar1)}, inc32 mar1)
      else ({s with mem := upd s.mem mar1 (s.iospace iar1)}, dec32 mar1)
    let cycles := s.mwait
    let s1 := p.1
    let s2 : State := if s1.dcntl &&& 0x02 ≠ 0 then {s1 with iol := s1.iol &&& 0xffffefff} else s1
    let s3 : State := {s2 with dma_mar1 := p.2, dma_bcr1 := bcr1 &&& 0xffff}
    let s5 : State :=
      if bcr1 = 0 then
        let s4 : State := {s3 with iol := s3.iol &&& 0xfffbffff, dstat := s3.dstat &&& 0x7f}
        if s4.dstat &&& 0x08 ≠ 0 ∧ s4.IFF1 = true then
          {s4 with int_pending := upd s4.int_pending 8 true}
        else s4
      else s3
    (s5, 6 + cycles)

/-! ## Timers and interrupts (`clock_timers`, `check_interrupts`,
`handle_io_timers`, z180.cpp 1909-2000) -/

/-- `clock_timers()`: one call per T-state; every 20th call advances both
programmable reload timers. -/
def clockTimers (s : State) : State :=
  if s.timer_cnt + 1 ≥ 20 then
    let s0 : State := {s with timer_cnt := 0}
    let s1 : State :=
      if s0.tcr &&& 0x01 ≠ 0 then
        if s0.tmdr_value0 = 0 then
          {s0 with tmdr_value0 := s0.rldr0, tcr := s0.tcr ||| 0x40}
        else {s0 with tmdr_value0 := s0.tmdr_value0 - 1}
      else s0
    let s2 : State :=
      if s1.tcr &&& 0x02 ≠ 0 then
        if s1.tmdr_value1 = 0 then
          {s1 with tmdr_value1 := s1.rldr1, tcr := s1.tcr ||| 0x80}
        else {s1 with tmdr_value1 := s1.tmdr_value1 - 1}
      else s1
    let s3 : State :=
      if s2.tcr &&& 0x10 ≠ 0 ∧ s2.tcr &&& 0x40 ≠ 0 ∧ s2.IFF1 = true ∧ s2.after_EI = false then
        {s2 with int_pending := upd s2.int_pending 5 true}
      else s2
    if s3.tcr &&& 0x20 ≠ 0 ∧ s3.tcr &&& 0x80 ≠ 0 ∧ s3.IFF1 = true ∧ s3.after_EI = false then
      {s3 with int_pending := upd s3.int_pending 6 true}
    else s3
  else {s with timer_cnt := s.timer_cnt + 1}

/-- `handle_io_timers(cycles)`: run `clock_timers` once per T-state. -/
def handleIoTimers : Nat → State → State
  | 0, s => s
  | n + 1, s => handleIoTimers n (clockTimers s)

/-- The promotion phase of `check_interrupts`: asserted external IRQ lines
whose ITC enable bits are set become pending when the interrupt flip-flop
allows it. -/
def promotePending (s : State) : Nat → Bool :=
  fun i =>
    s.int_pending i
    || (decide (i = 2) && (s.IFF1 && !s.after_EI) && s.irq0 && decide (s.itc &&& 0x01 = 0x01))
    || (decide (i = 3) && (s.IFF1 && !s.after_EI) && s.irq1 && decide (s.itc &&& 0x02 = 0x02))
    || (decide (i = 4) && (s.IFF1 && !s.after_EI) && s.irq2 && decide (s.itc &&& 0x04 = 0x04))

/-- The selection loop of `check_interrupts`: scan indices `k, k+1, ...`
(with `fuel` entries left) for the first pending one. -/
def scanPending (p : Nat → Bool) : Nat → Nat → Option Nat
  | 0, _ => none
  | fuel + 1, k => if p k then some k else scanPending p fuel (k + 1)

/-- `check_interrupts()` restricted to its effect on the pending-interrupt
vector: promote the external IRQ lines, then service (and clear) the first
pending entry in priority order 0..11.  `take_interrupt` is not among the
sources; it does not touch `m_int_pending`, so the serviced index is
returned alongside the new vector. -/
def checkInterrupts (s : State) : Option Nat × State :=
  let p := promotePending s
  match scanPending p 12 0 with
  | none => (none, {s with int_pending := p})
  | some i => (some i, {s with int_pending := upd p i false})

/-! ## Reset, NMI service and the NMI latch (`device_reset`,
`execute_run`, `execute_set_input`, z180.cpp 1828-1907, 2009-2027,
2153-2161) -/

/-- `device_reset()` on the modelled fields (z180.cpp 1828-1907).  The
cached `m_mmu[]` page table is derived state here (see `translate`), so
clearing it has no separate model. -/
def device_reset (s : State) : State :=
  {s with
    PC := 0, SP := 0, AF := 0x40, IX := 0xffff, IY := 0xffff,
    IFF1 := false, IFF2 := false, HALT := false,
    tmdr_latch := 0, read_tcr_tmdr0 := false, read_tcr_tmdr1 := false,
    iol := 0,
    tmdrh0 := 0, tmdrh1 := 0,
    tmdr_value0 := 0xffff, tmdr_value1 := 0xffff,
    nmi_state := false, nmi_pending := false,
    irq0 := false, irq1 := false, irq2 := false,
    after_EI := false,
    int_pending := fun i => if i ≤ 11 then false else s.int_pending i,
    timer_cnt := 0,
    asci_cntla0 := (s.asci_cntla0 &&& 0x08) ||| 0x10,
    asci_cntla1 := (s.asci_cntla1 &&& 0x08) ||| 0x10,
    asci_cntlb0 := (s.asci_cntlb0 &&& 0xa0) ||| 0x07,
    asci_cntlb1 := (s.asci_cntlb1 &&& 0x80) ||| 0x07,
    asci_stat0 := s.asci_stat0 &&& 0x06,
    asci_stat1 := 0x02,
    csio_cntr := 0x07,
    tcr := 0x00,
    asci_ext0 := 0x00, asci_ext1 := 0x00,
    cmr := 0x00, ccr := 0x00,
    dma_iar1 := s.dma_iar1 &&& 0x00ffff,
    dstat := 0x30,
    dmode := 0x00,
    dcntl := 0xf0,
    il := 0x00,
    itc := 0x01,
    rcr := 0xc0,
    mmu_cbr := 0x00, mmu_bbr := 0x00, mmu_cbar := 0xf0,
    omcr := 0xe0,
    iocr := 0x00}

/-- Modelled from the spec: the `PUSH` macro of `z180ops.h` (not among the
sources) — the return address is pushed onto the stack: SP drops by two and
the low/high bytes of the value are written through the MMU at the new SP
and SP+1. -/
def push16 (s : State) (v : Nat) : State :=
  let sp := (s.SP + 0x10000 - 2) % 0x10000
  {s with SP := sp,
          mem := upd (upd s.mem (translate s ((sp + 1) % 0x10000)) ((v >>> 8) &&& 0xff))
                     (translate s sp) (v &&& 0xff)}

/-- The NMI service prologue of `execute_run` (z180.cpp 2012-2027).
`LEAVE_HALT` of `z180ops.h` is not among the sources; per the spec the NMI
forces the processor out of halt, modelled as clearing the halt flag. -/
def nmiCheck (s : State) : State :=
  if s.nmi_pending then
    let s1 : State := {s with HALT := false}
    let s2 : State := {s1 with dstat := s1.dstat &&& 0xfe}
    let s3 : State := {s2 with IFF2 := s2.IFF1, IFF1 := false}
    let s4 : State := push16 s3 s3.PC
    let s5 : State := {s4 with PC := 0x66, icount := s4.icount - 11, nmi_pending := false}
    handleIoTimers 11 s5
  else s

/-- `execute_set_input` for the NMI line (z180.cpp 2155-2161): the pending
latch is set on a rising edge of the line. -/
def setInputNMI (s : State) (line : Bool) : State :=
  let s1 : State := if s.nmi_state = false ∧ line ≠ false then {s with nmi_pending := true} else s
  {s1 with nmi_state := line}


/-! ## Helper lemmas for byte and bit reasoning -/

theorem land255 (x : Nat) : x &&& 255 = x % 256 := by
  have h := Nat.and_pow_two_sub_one_eq_mod x 8
  norm_num at h
  exact h

theorem land255_of_lt (x : Nat) (h : x < 256) : x &&& 255 = x := by
  rw [land255]; omega

theorem or_and_one (x y : Nat) : (x ||| y) &&& 1 = (x &&& 1) ||| (y &&& 1) := by
  rw [Nat.and_comm, Nat.and_or_distrib_left, Nat.and_comm 1 x, Nat.and_comm 1 y]

theorem dstat_cond1 (d : Nat) :
    (d &&& 0xa0 = 0x80) ↔ (d &&& 0x80 = 0x80 ∧ d &&& 0x20 = 0) := by
  have h7 := Nat.and_two_pow d 7
  have h5 := Nat.and_two_pow d 5
  norm_num at h7 h5
  have h : d &&& 0xa0 = (d &&& 0x80) ||| (d &&& 0x20) := by
    rw [show (0xa0 : Nat) = 0x80 ||| 0x20 by decide]
    exact Nat.and_or_distrib_left d 0x80 0x20
  rw [h, h7, h5]
  cases d.testBit 7 <;> cases d.testBit 5 <;> simp

theorem dstat_cond2 (d : Nat) :
    (d &&& 0x50 = 0x40) ↔ (d &&& 0x40 = 0x40 ∧ d &&& 0x10 = 0) := by
  have h6 := Nat.and_two_pow d 6
  have h4 := Nat.and_two_pow d 4
  norm_num at h6 h4
  have h : d &&& 0x50 = (d &&& 0x40) ||| (d &&& 0x10) := by
    rw [show (0x50 : Nat) = 0x40 ||| 0x10 by decide]
    exact Nat.and_or_distrib_left d 0x40 0x10
  rw [h, h6, h4]
  cases d.testBit 6 <;> cases d.testBit 4 <;> simp

/-! ## C3: reset invariant -/

/-- C3: after `device_reset`, IX = IY = 0xFFFF, the zero flag of F is set,
the DMA enables DE0/DE1 in DSTAT are clear, the timer enables TDE0/TDE1 in
TCR are clear, the MMU registers hold CBR = 0, BBR = 0, CBAR = 0xF0, and
the MMU translation is the identity on every 16-bit logical address. -/
theorem C3_reset_invariant (s : State) :
    (device_reset s).IX = 0xffff ∧ (device_reset s).IY = 0xffff ∧
    (device_reset s).AF &&& 0x40 = 0x40 ∧
    (device_reset s).dstat &&& 0x40 = 0 ∧ (device_reset s).dstat &&& 0x80 = 0 ∧
    (device_reset s).tcr &&& 0x01 = 0 ∧ (device_reset s).tcr &&& 0x02 = 0 ∧
    (device_reset s).mmu_cbr = 0 ∧ (device_reset s).mmu_bbr = 0 ∧
    (device_reset s).mmu_cbar = 0xf0 ∧
    (∀ addr, addr < 0x10000 → translate (device_reset s) addr = addr) := by
  refine ⟨rfl, rfl, ?_, ?_, ?_, ?_, ?_, rfl, rfl, rfl, ?_⟩
  · show (0x40 : Nat) &&& 0x40 = 0x40; decide
  · show (0x30 : Nat) &&& 0x40 = 0; decide
  · show (0x30 : Nat) &&& 0x80 = 0; decide
  · show (0x00 : Nat) &&& 0x01 = 0; decide
  · show (0x00 : Nat) &&& 0x02 = 0; decide
  intro addr ha
  show translate (device_reset s) addr = addr
  rw [translate]
  have hc : (device_reset s).mmu_cbar = 0xf0 := rfl
  have hb : (device_reset s).mmu_bbr = 0 := rfl
  have hr : (device_reset s).mmu_cbr = 0 := rfl
  rw [hc, hb, hr]
  norm_num [Nat.shiftLeft_eq]
  omega

/-- Witness for C3 at the all-default state and logical address 0xABCD. -/
theorem C3_reset_invariant_witness :
    (device_reset {}).IX = 0xffff ∧ translate (device_reset {}) 0xabcd = 0xabcd :=
  ⟨(C3_reset_invariant {}).1,
   (C3_reset_invariant {}).2.2.2.2.2.2.2.2.2.2 0xabcd (by norm_num)⟩

/-! ## C9: the TMDR1H write path -/

/-- C9: writing byte `d` to remapped internal port 0x15 (TMDR1H) sets the
timer-1 down-counter to `(old AND 0x00FF) OR d` — the byte is merged into
the low bits without being shifted — whereas the timer-0 counterpart at
port 0x0D sets the counter to `(old AND 0x00FF) OR (d << 8)`. -/
theorem C9_tmdr1h_write (s : State) (d : Nat) (hd : d < 256) :
    (wcInternal s 0x15 d).tmdr_value1 = (s.tmdr_value1 &&& 0x00ff) ||| d ∧
    (wcInternal s 0x0d d).tmdr_value0 = (s.tmdr_value0 &&& 0x00ff) ||| (d <<< 8) := by
  have h255 : d &&& 0xff = d := land255_of_lt d hd
  constructor <;> simp [wcInternal, h255]

/-- Witness for C9 at the default state with data byte 0xAB. -/
theorem C9_tmdr1h_write_witness :
    (wcInternal {} 0x15 0xab).tmdr_value1 = (State.tmdr_value1 {} &&& 0x00ff) ||| 0xab ∧
    (wcInternal {} 0x0d 0xab).tmdr_value0 = (State.tmdr_value0 {} &&& 0x00ff) ||| (0xab <<< 8) :=
  C9_tmdr1h_write {} 0xab (by norm_num)

/-! ## C10: DSTAT writes never clear DME -/

/-- C10: a write of byte `d` to the DMA status register DSTAT (remapped
port 0x30) leaves the read-only DME bit equal to the old DME value ORed
with 1 exactly when `d` has DE1 set with DWE1 clear, or DE0 set with DWE0
clear: a direct register write can arm but never disarm DME. -/
theorem C10_dstat_write_dme (s : State) (d : Nat) (hd : d < 256) :
    (wcInternal s 0x30 d).dstat &&& 0x01 =
      (s.dstat &&& 0x01) |||
        (if (d &&& 0x80 = 0x80 ∧ d &&& 0x20 = 0) ∨ (d &&& 0x40 = 0x40 ∧ d &&& 0x10 = 0)
         then 1 else 0) := by
  have h255 : d &&& 0xff = d := land255_of_lt d hd
  have hB : (d &&& 0xfd &&& 0xfe) &&& 1 = 0 := by
    rw [Nat.and_assoc, Nat.and_assoc]
    norm_num
  have hA : (s.dstat &&& 1) &&& 1 = s.dstat &&& 1 := by
    rw [Nat.and_assoc, show (1 : Nat) &&& 1 = 1 by decide]
  have hmod : ∀ x y : Nat, (x ||| y) % 2 = (x % 2) ||| (y % 2) := fun x y => by
    rw [← Nat.and_one_is_mod, ← Nat.and_one_is_mod, ← Nat.and_one_is_mod, or_and_one]
  have hBmod : (d &&& 253 &&& 254) % 2 = 0 := by rw [← Nat.and_one_is_mod]; exact hB
  have hAm : s.dstat % 2 % 2 = s.dstat % 2 := by omega
  simp only [wcInternal, h255]
  norm_num
  simp only [dstat_cond1, dstat_cond2]
  by_cases hc1 : d &&& 0x80 = 0x80 ∧ d &&& 0x20 = 0 <;>
    by_cases hc2 : d &&& 0x40 = 0x40 ∧ d &&& 0x10 = 0 <;>
      simp [hc1, hc2, hmod, hBmod, hAm, Nat.or_assoc, Nat.or_self]

/-- Witness for C10 at the default state with data byte 0x80 (DE1 set,
DWE1 clear). -/
theorem C10_dstat_write_dme_witness :
    (wcInternal {} 0x30 0x80).dstat &&& 0x01 =
      (State.dstat {} &&& 0x01) |||
        (if (0x80 &&& 0x80 = 0x80 ∧ 0x80 &&& 0x20 = 0) ∨
            (0x80 &&& 0x40 = 0x40 ∧ 0x80 &&& 0x10 = 0)
         then 1 else 0) :=
  C10_dstat_write_dme {} 0x80 (by norm_num)


/-! ## Preservation lemmas for the timer clocking -/

theorem clockTimers_pres (s : State) :
    (clockTimers s).mem = s.mem ∧ (clockTimers s).SP = s.SP ∧
    (clockTimers s).PC = s.PC ∧ (clockTimers s).IFF1 = s.IFF1 ∧
    (clockTimers s).IFF2 = s.IFF2 ∧ (clockTimers s).HALT = s.HALT ∧
    (clockTimers s).dstat = s.dstat ∧ (clockTimers s).nmi_pending = s.nmi_pending ∧
    (clockTimers s).icount = s.icount := by
  refine ⟨?_, ?_, ?_, ?_, ?_, ?_, ?_, ?_, ?_⟩ <;>
    simp [clockTimers, apply_ite State.mem, apply_ite State.SP, apply_ite State.PC,
      apply_ite State.IFF1, apply_ite State.IFF2, apply_ite State.HALT,
      apply_ite State.dstat, apply_ite State.nmi_pending, apply_ite State.icount]

theorem handleIoTimers_pres (n : Nat) (s : State) :
    (handleIoTimers n s).mem = s.mem ∧ (handleIoTimers n s).SP = s.SP ∧
    (handleIoTimers n s).PC = s.PC ∧ (handleIoTimers n s).IFF1 = s.IFF1 ∧
    (handleIoTimers n s).IFF2 = s.IFF2 ∧ (handleIoTimers n s).HALT = s.HALT ∧
    (handleIoTimers n s).dstat = s.dstat ∧
    (handleIoTimers n s).nmi_pending = s.nmi_pending ∧
    (handleIoTimers n s).icount = s.icount := by
  induction n generalizing s with
  | zero => exact ⟨rfl, rfl, rfl, rfl, rfl, rfl, rfl, rfl, rfl⟩
  | succ n ih =>
    have h1 := clockTimers_pres s
    have h2 := ih (clockTimers s)
    simp only [handleIoTimers]
    exact ⟨h2.1.trans h1.1, h2.2.1.trans h1.2.1, h2.2.2.1.trans h1.2.2.1,
      h2.2.2.2.1.trans h1.2.2.2.1, h2.2.2.2.2.1.trans h1.2.2.2.2.1,
      h2.2.2.2.2.2.1.trans h1.2.2.2.2.2.1, h2.2.2.2.2.2.2.1.trans h1.2.2.2.2.2.2.1,
      h2.2.2.2.2.2.2.2.1.trans h1.2.2.2.2.2.2.2.1,
      h2.2.2.2.2.2.2.2.2.trans h1.2.2.2.2.2.2.2.2⟩

theorem hIoT_mem (n : Nat) (s : State) : (handleIoTimers n s).mem = s.mem :=
  (handleIoTimers_pres n s).1

theorem hIoT_SP (n : Nat) (s : State) : (handleIoTimers n s).SP = s.SP :=
  (handleIoTimers_pres n s).2.1

theorem hIoT_PC (n : Nat) (s : State) : (handleIoTimers n s).PC = s.PC :=
  (handleIoTimers_pres n s).2.2.1

theorem hIoT_IFF1 (n : Nat) (s : State) : (handleIoTimers n s).IFF1 = s.IFF1 :=
  (handleIoTimers_pres n s).2.2.2.1

theorem hIoT_IFF2 (n : Nat) (s : State) : (handleIoTimers n s).IFF2 = s.IFF2 :=
  (handleIoTimers_pres n s).2.2.2.2.1

theorem hIoT_HALT (n : Nat) (s : State) : (handleIoTimers n s).HALT = s.HALT :=
  (handleIoTimers_pres n s).2.2.2.2.2.1

theorem hIoT_dstat (n : Nat) (s : State) : (handleIoTimers n s).dstat = s.dstat :=
  (handleIoTimers_pres n s).2.2.2.2.2.2.1

theorem hIoT_nmi (n : Nat) (s : State) : (handleIoTimers n s).nmi_pending = s.nmi_pending :=
  (handleIoTimers_pres n s).2.2.2.2.2.2.2.1

theorem hIoT_icount (n : Nat) (s : State) : (handleIoTimers n s).icount = s.icount :=
  (handleIoTimers_pres n s).2.2.2.2.2.2.2.2

/-! ## C7: NMI service at the top of the run loop -/

/-- C7: whenever `execute_run` starts with an NMI pending, its prologue
clears the halt flag, clears the global DMA-enable bit DME, copies IFF1
into IFF2, clears IFF1, pushes the current PC onto the stack, sets PC to
0x0066, clears the NMI-pending latch and accounts 11 T-states; and the
NMI-pending latch is set only on a rising edge of the NMI input line. -/
theorem C7_nmi_service (s : State) (h : s.nmi_pending = true) :
    (nmiCheck s).HALT = false ∧
    (nmiCheck s).dstat &&& 0x01 = 0 ∧
    (nmiCheck s).IFF2 = s.IFF1 ∧
    (nmiCheck s).IFF1 = false ∧
    (nmiCheck s).PC = 0x66 ∧
    (nmiCheck s).SP = (s.SP + 0x10000 - 2) % 0x10000 ∧
    (nmiCheck s).mem =
      upd (upd s.mem (translate s (((s.SP + 0x10000 - 2) % 0x10000 + 1) % 0x10000))
             ((s.PC >>> 8) &&& 0xff))
          (translate s ((s.SP + 0x10000 - 2) % 0x10000)) (s.PC &&& 0xff) ∧
    (nmiCheck s).nmi_pending = false ∧
    (nmiCheck s).icount = s.icount - 11 ∧
    (∀ s2 : State, ∀ line : Bool,
      (setInputNMI s2 line).nmi_pending = (s2.nmi_pending || (!s2.nmi_state && line))) := by
  refine ⟨?_, ?_, ?_, ?_, ?_, ?_, ?_, ?_, ?_, ?_⟩
  · simp [nmiCheck, h, hIoT_HALT, push16]
  · simp only [nmiCheck, h, if_true, hIoT_dstat]
    show (push16 _ _).dstat &&& 1 = 0
    simp only [push16]
    show (s.dstat &&& 0xfe) &&& 1 = 0
    rw [Nat.and_assoc]
    norm_num
  · simp [nmiCheck, h, hIoT_IFF2, push16]
  · simp [nmiCheck, h, hIoT_IFF1, push16]
  · simp [nmiCheck, h, hIoT_PC, push16]
  · simp [nmiCheck, h, hIoT_SP, push16]
  · simp [nmiCheck, h, hIoT_mem, push16, translate]
  · simp [nmiCheck, h, hIoT_nmi, push16]
  · simp [nmiCheck, h, hIoT_icount, push16]
  · intro s2 line
    cases hn : s2.nmi_state <;> cases hl : line <;>
      simp [setInputNMI, hn, hl]

/-- Witness for C7: a pending NMI at a concrete state. -/
theorem C7_nmi_service_witness :
    (nmiCheck {nmi_pending := true, SP := 0x8000, PC := 0x1234}).PC = 0x66 ∧
    (nmiCheck {nmi_pending := true, SP := 0x8000, PC := 0x1234}).SP =
      (0x8000 + 0x10000 - 2) % 0x10000 :=
  ⟨(C7_nmi_service {nmi_pending := true, SP := 0x8000, PC := 0x1234} rfl).2.2.2.2.1,
   (C7_nmi_service {nmi_pending := true, SP := 0x8000, PC := 0x1234} rfl).2.2.2.2.2.1⟩

/-! ## C2: check_interrupts services the highest-priority pending interrupt -/

theorem scanPending_none (p : Nat → Bool) :
    ∀ fuel k, scanPending p fuel k = none → ∀ j, k ≤ j → j < k + fuel → p j = false := by
  intro fuel
  induction fuel with
  | zero => intro k _ j h1 h2; omega
  | succ n ih =>
    intro k h j h1 h2
    rw [scanPending] at h
    by_cases hp : p k
    · simp [hp] at h
    · simp [hp] at h
      rcases Nat.eq_or_lt_of_le h1 with he | hlt
      · rw [← he]; exact Bool.of_not_eq_true hp
      · exact ih (k + 1) h j hlt (by omega)

theorem scanPending_some (p : Nat → Bool) :
    ∀ fuel k i, scanPending p fuel k = some i →
      k ≤ i ∧ i < k + fuel ∧ p i = true ∧ ∀ j, k ≤ j → j < i → p j = false := by
  intro fuel
  induction fuel with
  | zero => intro k i h; rw [scanPending] at h; exact absurd h (by simp)
  | succ n ih =>
    intro k i h
    rw [scanPending] at h
    by_cases hp : p k
    · simp [hp] at h
      exact ⟨by omega, by omega, by rw [← h]; exact hp, fun j h1 h2 => by omega⟩
    · simp [hp] at h
      obtain ⟨h1, h2, h3, h4⟩ := ih (k + 1) i h
      refine ⟨by omega, by omega, h3, fun j hj1 hj2 => ?_⟩
      rcases Nat.eq_or_lt_of_le hj1 with he | hlt
      · rw [← he]; exact Bool.of_not_eq_true hp
      · exact h4 j hlt hj2

/-- C2: one invocation of `check_interrupts` services at most one pending
interrupt — the pending one with the lowest index in the priority order
TRAP, NMI, IRQ0, IRQ1, IRQ2, PRT0, PRT1, DMA0, DMA1, CSIO, ASCI0, ASCI1,
after the asserted-and-enabled external IRQ lines have been promoted into
the pending set — and clears exactly that one pending flag, leaving every
other pending flag unchanged. -/
theorem C2_check_interrupts (s : State) :
    ((checkInterrupts s).1 = none →
      (∀ j, j < 12 → promotePending s j = false) ∧
      (checkInterrupts s).2.int_pending = promotePending s) ∧
    (∀ i, (checkInterrupts s).1 = some i →
      i < 12 ∧ promotePending s i = true ∧
      (∀ j, j < i → promotePending s j = false) ∧
      (checkInterrupts s).2.int_pending i = false ∧
      (∀ j, j ≠ i → (checkInterrupts s).2.int_pending j = promotePending s j)) := by
  constructor
  · intro hn
    rcases hscan : scanPending (promotePending s) 12 0 with _ | i
    · constructor
      · intro j hj
        exact scanPending_none (promotePending s) 12 0 hscan j (by omega) (by omega)
      · simp [checkInterrupts, hscan]
    · exfalso
      simp [checkInterrupts, hscan] at hn
  · intro i hi
    rcases hscan : scanPending (promotePending s) 12 0 with _ | i'
    · exfalso
      simp [checkInterrupts, hscan] at hi
    · simp only [checkInterrupts, hscan] at hi
      have hii : i' = i := by simpa using hi
      subst hii
      have hs := scanPending_some (promotePending s) 12 0 i' hscan
      refine ⟨by omega, hs.2.2.1, fun j hj => hs.2.2.2 j (by omega) hj, ?_, ?_⟩
      · simp [checkInterrupts, hscan]
      · intro j hj
        simp [checkInterrupts, hscan, upd_other _ _ _ _ hj]

/-- Witness for C2: pending TRAP and PRT1 flags; index 0 is serviced and
cleared, index 6 stays pending. -/
theorem C2_check_interrupts_witness :
    (checkInterrupts {int_pending := fun i => decide (i = 0 ∨ i = 6)}).2.int_pending 0 = false ∧
    (checkInterrupts {int_pending := fun i => decide (i = 0 ∨ i = 6)}).2.int_pending 6 =
      promotePending {int_pending := fun i => decide (i = 0 ∨ i = 6)} 6 :=
  ⟨((C2_check_interrupts _).2 0 (by decide)).2.2.2.1,
   ((C2_check_interrupts _).2 0 (by decide)).2.2.2.2 6 (by decide)⟩

/-! ## C5: a zero byte-count register means 65536 -/

/-- C5: a DMA dispatch that begins with the 16-bit byte-count register
holding 0 proceeds as if the remaining count were 65536 instead of
transferring nothing or terminating: channel 0 (cycle-steal, memory to
memory with both addresses incrementing) transfers a byte and leaves the
count register at 0xFFFF with the channel still enabled; channel 1
transfers a byte and does not reach terminal count (this source never
decrements `bcr1`, so the zero-adjusted count is stored back truncated). -/
theorem C5_bcr_zero_is_65536 (s : State)
    (h0 : s.dma_bcr0 = 0) (hmode : s.dmode &&& 0x02 = 0) (hmm : s.dmode &&& 0x3c = 0)
    (hde : s.dstat &&& 0x40 = 0x40) (maxc : Int)
    (h1 : s.dma_bcr1 = 0) (hreq : s.iol &&& 0x1000 = 0x1000) (hde1 : s.dstat &&& 0x80 = 0x80)
    (hdim : s.dcntl &&& 0x03 = 0) (hdim1 : s.dcntl &&& 0x02 = 0) :
    ((z180_dma0 s maxc).1.dma_bcr0 = 0xffff ∧
     (z180_dma0 s maxc).1.mem = upd s.mem s.dma_dar0 (s.mem s.dma_sar0) ∧
     (z180_dma0 s maxc).1.dma_sar0 = inc32 s.dma_sar0 ∧
     (z180_dma0 s maxc).1.dma_dar0 = inc32 s.dma_dar0 ∧
     (z180_dma0 s maxc).1.dstat = s.dstat ∧
     (z180_dma0 s maxc).1.int_pending = s.int_pending) ∧
    ((z180_dma1 s).1.dma_bcr1 = 0 ∧
     (z180_dma1 s).1.iospace =
       upd s.iospace (s.dma_iar1 &&& 0xffff) (s.mem s.dma_mar1) ∧
     (z180_dma1 s).1.dma_mar1 = inc32 s.dma_mar1 ∧
     (z180_dma1 s).1.dstat = s.dstat ∧
     (z180_dma1 s).1.int_pending = s.int_pending) := by
  constructor
  · have hde' : ¬ s.dstat &&& 0x40 = 0 := by omega
    simp [z180_dma0, h0, hmode, hde', dma0go, dma0iter, hmm]
  · have hreq' : ¬ s.iol &&& 0x1000 = 0 := by omega
    have hde1' : ¬ s.dstat &&& 0x80 = 0 := by omega
    simp [z180_dma1, h1, hreq', hde1', hdim, hdim1]
    decide

/-- Witness for C5 at a concrete state with both count registers zero. -/
theorem C5_bcr_zero_is_65536_witness :
    ((z180_dma0 {dstat := 0xc0, iol := 0x1000, dma_sar0 := 0x100, dma_dar0 := 0x200} 100).1.dma_bcr0
        = 0xffff) ∧
    ((z180_dma1 {dstat := 0xc0, iol := 0x1000, dma_sar0 := 0x100, dma_dar0 := 0x200}).1.dma_bcr1
        = 0) :=
  ⟨((C5_bcr_zero_is_65536 {dstat := 0xc0, iol := 0x1000, dma_sar0 := 0x100, dma_dar0 := 0x200}
      rfl (by decide) (by decide) (by decide) 100 rfl (by decide) (by decide) (by decide)
      (by decide)).1).1,
   ((C5_bcr_zero_is_65536 {dstat := 0xc0, iol := 0x1000, dma_sar0 := 0x100, dma_dar0 := 0x200}
      rfl (by decide) (by decide) (by decide) 100 rfl (by decide) (by decide) (by decide)
      (by decide)).2).1⟩


/-! ## C6: programmable reload timer round-trip -/

theorem or_and_mask (x y z : Nat) : (x ||| y) &&& z = (x &&& z) ||| (y &&& z) := by
  rw [Nat.and_comm, Nat.and_or_distrib_left, Nat.and_comm z x, Nat.and_comm z y]

theorem lo_or_hi (R : Nat) (hR : R < 0x10000) :
    (R &&& 0xff) ||| ((R >>> 8) <<< 8) = R := by
  rw [land255, Nat.shiftLeft_eq, Nat.shiftRight_eq_div_pow, Nat.or_comm,
    Nat.mul_comm (R / 2 ^ 8) (2 ^ 8),
    ← Nat.mul_add_lt_is_or (show R % 256 < 2 ^ 8 by norm_num; omega) (R / 2 ^ 8)]
  norm_num
  omega

theorem handleIoTimers_add (a b : Nat) (s : State) :
    handleIoTimers (a + b) s = handleIoTimers b (handleIoTimers a s) := by
  induction a generalizing s with
  | zero => simp [handleIoTimers]
  | succ a ih =>
    rw [show a + 1 + b = (a + b) + 1 by omega]
    show handleIoTimers (a + b) (clockTimers s) = _
    rw [ih]
    rfl

/-- The 19 silent calls between timer ticks just advance the prescaler. -/
theorem timers_warmup : ∀ (j : Nat) (s : State), s.timer_cnt + j < 20 →
    handleIoTimers j s = {s with timer_cnt := s.timer_cnt + j} := by
  intro j
  induction j with
  | zero => intro s _; simp [handleIoTimers]
  | succ j ih =>
    intro s h
    rw [handleIoTimers, clockTimers, if_neg (by omega)]
    rw [ih _ (by simp; omega)]
    simp
    omega

/-- A full timer tick from a zero counter: reload and raise TIF0. -/
theorem tick_fire0 (s : State) (hc : s.timer_cnt = 0) (htcr : s.tcr = 1 ∨ s.tcr = 0x41)
    (hv : s.tmdr_value0 = 0) :
    handleIoTimers 20 s =
      {s with timer_cnt := 0, tmdr_value0 := s.rldr0, tcr := s.tcr ||| 0x40} := by
  rw [show (20 : Nat) = 19 + 1 from rfl, handleIoTimers_add,
    timers_warmup 19 s (by omega), hc]
  rcases htcr with h | h <;>
    simp [handleIoTimers, clockTimers, h, hv,
      show (1 : Nat) &&& 1 = 1 from by decide, show (65 : Nat) &&& 1 = 1 from by decide,
      show (65 : Nat) &&& 2 = 0 from by decide, show (65 : Nat) &&& 16 = 0 from by decide,
      show (65 : Nat) &&& 32 = 0 from by decide]

/-- A full timer tick from a nonzero counter: decrement. -/
theorem tick_dec0 (s : State) (hc : s.timer_cnt = 0) (htcr : s.tcr = 0x41)
    (hv : s.tmdr_value0 ≠ 0) :
    handleIoTimers 20 s = {s with timer_cnt := 0, tmdr_value0 := s.tmdr_value0 - 1} := by
  rw [show (20 : Nat) = 19 + 1 from rfl, handleIoTimers_add,
    timers_warmup 19 s (by omega), hc]
  simp [handleIoTimers, clockTimers, htcr, hv,
    show (65 : Nat) &&& 1 = 1 from by decide, show (65 : Nat) &&& 2 = 0 from by decide,
    show (65 : Nat) &&& 16 = 0 from by decide, show (65 : Nat) &&& 32 = 0 from by decide]

/-- `k` consecutive ticks while the counter stays nonzero just decrement it. -/
theorem tick_dec_phase : ∀ (k : Nat) (s : State), s.timer_cnt = 0 → s.tcr = 0x41 →
    k ≤ s.tmdr_value0 →
    handleIoTimers (20 * k) s = {s with timer_cnt := 0, tmdr_value0 := s.tmdr_value0 - k} := by
  intro k
  induction k with
  | zero =>
    intro s hc _ _
    show s = _
    rw [Nat.sub_zero, ← hc]
  | succ k ih =>
    intro s hc htcr hk
    rw [show 20 * (k + 1) = 20 + 20 * k by ring, handleIoTimers_add,
      tick_dec0 s hc htcr (by omega)]
    rw [ih _ (by simp) (by simp [htcr]) (by simp; omega)]
    simp
    omega

/-- The register programming sequence of the claim: write the reload value
into RLDR0 (low then high byte), then write TCR with just TDE0 set. -/
def prtProgram (s : State) (R : Nat) : State :=
  wcInternal (wcInternal (wcInternal s 0x0e (R &&& 0xff)) 0x0f (R >>> 8)) 0x10 0x01

theorem prtProgram_spec (s : State) (R : Nat) (hR : R < 0x10000) (htcr : s.tcr = 0) :
    prtProgram s R = {s with rldr0 := R, tcr := 1, tmdr_value0 := 0} := by
  have h1 : R &&& 0xff &&& 0xff = R &&& 0xff := by
    rw [Nat.and_assoc, show (0xff : Nat) &&& 0xff = 0xff from by decide]
  have h2 : (s.rldr0 &&& 0xff00) &&& 0xff = 0 := by
    rw [Nat.and_assoc, show (0xff00 : Nat) &&& 0xff = 0 from by decide]
    simp
  have h3 : (R >>> 8) &&& 0xff = R >>> 8 := by
    refine land255_of_lt _ ?_
    rw [Nat.shiftRight_eq_div_pow]
    omega
  simp [prtProgram, wcInternal, htcr, h1, or_and_mask, h2, h3, lo_or_hi R hR]

/-- C6 (amended): writing reload value `R` and then enabling TDE0 resets
the down-counter to 0, so the first tick (20 T-states) immediately reloads
it to `R` and raises TIF0; thereafter the counter reaches zero after
exactly `R + 1` further ticks, and the reload to `R` associated with that
zero happens on the following tick. -/
theorem C6_timer_roundtrip (s : State) (R : Nat) (hR : R < 0x10000)
    (htcr : s.tcr = 0) (hcnt : s.timer_cnt = 0) :
    (prtProgram s R).tmdr_value0 = 0 ∧
    (handleIoTimers 20 (prtProgram s R)).tmdr_value0 = R ∧
    (handleIoTimers 20 (prtProgram s R)).tcr &&& 0x40 = 0x40 ∧
    (∀ k, k ≤ R → (handleIoTimers (20 * (1 + k)) (prtProgram s R)).tmdr_value0 = R - k) ∧
    (handleIoTimers (20 * (R + 2)) (prtProgram s R)).tmdr_value0 = R := by
  rw [prtProgram_spec s R hR htcr]
  have h1 : handleIoTimers 20 {s with rldr0 := R, tcr := 1, tmdr_value0 := 0} =
      {s with rldr0 := R, tcr := 0x41, tmdr_value0 := R, timer_cnt := 0} := by
    rw [tick_fire0 _ (by simp [hcnt]) (by simp) (by simp)]
    simp
  have h40 : (65 : Nat) &&& 64 = 64 := by decide
  have hdec : ∀ k, k ≤ R →
      handleIoTimers (20 * k) {s with rldr0 := R, tcr := 0x41, tmdr_value0 := R, timer_cnt := 0} =
      {s with rldr0 := R, tcr := 0x41, tmdr_value0 := R - k, timer_cnt := 0} := by
    intro k hk
    rw [tick_dec_phase k _ (by simp) (by simp) (by simp; omega)]
  refine ⟨by simp, by rw [h1], by rw [h1]; simp [h40], ?_, ?_⟩
  · intro k hk
    rw [show 20 * (1 + k) = 20 + 20 * k by ring, handleIoTimers_add, h1, hdec k hk]
  · rw [show 20 * (R + 2) = (20 + 20 * R) + 20 by ring, handleIoTimers_add,
      handleIoTimers_add, h1, hdec R le_rfl]
    rw [tick_fire0 _ (by simp) (by simp) (by simp)]

set_option maxRecDepth 4000 in
/-- Witness for C6 at the default state with `R = 2`. -/
theorem C6_timer_roundtrip_witness :
    (handleIoTimers 20 (prtProgram {} 2)).tmdr_value0 = 2 ∧
    (handleIoTimers (20 * (1 + 2)) (prtProgram {} 2)).tmdr_value0 = 2 - 2 :=
  ⟨(C6_timer_roundtrip {} 2 (by norm_num) rfl rfl).2.1,
   (C6_timer_roundtrip {} 2 (by norm_num) rfl rfl).2.2.2.1 2 (by norm_num)⟩

set_option maxRecDepth 4000 in
/-- Counterexample to C6 as stated, at reload value `R = 2`: after exactly
`R + 1 = 3` ticks (60 T-states) the counter holds 0 and has not been
reloaded to `R`; TIF0 is already raised after the very first tick; the
reload to `R` only happens on tick `R + 2`. -/
theorem C6_timer_roundtrip_counterexample :
    (handleIoTimers 60 (prtProgram {} 2)).tmdr_value0 = 0 ∧
    (handleIoTimers 60 (prtProgram {} 2)).tmdr_value0 ≠ 2 ∧
    (handleIoTimers 20 (prtProgram {} 2)).tcr &&& 0x40 = 0x40 ∧
    (handleIoTimers 80 (prtProgram {} 2)).tmdr_value0 = 2 := by
  refine ⟨?_, ?_, ?_, ?_⟩ <;> decide


/-! ## C8: internal I/O register bank remapping -/

/-- The internal write dispatch never touches the external I/O space. -/
theorem wcInternal_iospace (s : State) (p d : Nat) :
    (wcInternal s p d).iospace = s.iospace := by
  simp [wcInternal, apply_ite State.iospace]

/-- The internal read dispatch never touches the external read log. -/
theorem rcInternal_ioReads (s : State) (p e : Nat) :
    (rcInternal s p e).2.ioReads = s.ioReads := by
  simp [rcInternal, apply_ite (fun q : Nat × State => q.2.ioReads),
    apply_ite State.ioReads]

/-- Ports at or beyond the 64-byte internal window leave the internal
registers untouched on a write. -/
theorem wcInternal_hi (s : State) (p d : Nat) (h : 0x40 ≤ p) :
    wcInternal s p d = s := by
  simp only [wcInternal]
  iterate 64 rw [if_neg (by omega)]

/-- Ports at or beyond the 64-byte internal window return the external
value unchanged on a read. -/
theorem rcInternal_hi (s : State) (p e : Nat) (h : 0x40 ≤ p) :
    rcInternal s p e = (e, s) := by
  simp only [rcInternal]
  iterate 64 rw [if_neg (by omega)]

/-- Within the window the returned data never depends on the externally
read value: the internal register bank overrides it. -/
theorem rcInternal_override (s : State) (p e1 e2 : Nat) (h : p < 0x40) :
    (rcInternal s p e1).1 = (rcInternal s p e2).1 := by
  interval_cases p <;> simp [rcInternal]

/-- C8 (amended): both `readControl` and `writeControl` first perform the
access on the external I/O space at the original port (the external
handler observes every access); the port is then remapped by subtracting
the IOCR base field exactly when the port's base-selected bits all match
it, and the access is serviced by the internal register bank — the read
overriding the externally read value — exactly when the resulting port
falls inside the 64-byte internal window `0x00..0x3F`. -/
theorem C8_io_access (s : State) (port d e1 e2 : Nat) :
    (z180_writecontrol s port d).iospace = upd s.iospace port (d &&& 0xff) ∧
    (z180_readcontrol s port).2.ioReads = port :: s.ioReads ∧
    (0x40 ≤ remapPort s.iocr port →
      z180_writecontrol s port d = {s with iospace := upd s.iospace port (d &&& 0xff)} ∧
      (z180_readcontrol s port).1 = s.iospace port ∧
      (z180_readcontrol s port).2 = {s with ioReads := port :: s.ioReads}) ∧
    (remapPort s.iocr port < 0x40 →
      (rcInternal s (remapPort s.iocr port) e1).1 =
        (rcInternal s (remapPort s.iocr port) e2).1) := by
  refine ⟨?_, ?_, fun h => ⟨?_, ?_, ?_⟩, fun h => rcInternal_override s _ e1 e2 h⟩
  · simp [z180_writecontrol, wcInternal_iospace]
  · simp [z180_readcontrol, rcInternal_ioReads]
  · simp only [z180_writecontrol]
    rw [wcInternal_hi _ _ _ (by simpa using h)]
  · simp only [z180_readcontrol]
    rw [rcInternal_hi _ _ _ (by simpa using h)]
  · simp only [z180_readcontrol]
    rw [rcInternal_hi _ _ _ (by simpa using h)]

/-- Witness for C8: a low port is serviced internally, and the external
write at port 2 is visible in the I/O space. -/
theorem C8_io_access_witness :
    (z180_writecontrol {} 0x02 0xaa).iospace = upd (State.iospace {}) 0x02 (0xaa &&& 0xff) ∧
    (rcInternal {} (remapPort (State.iocr {}) 0x15) 7).1 =
      (rcInternal {} (remapPort (State.iocr {}) 0x15) 9).1 :=
  ⟨(C8_io_access {} 0x02 0xaa 7 9).1,
   (C8_io_access {} 0x15 0 7 9).2.2.2 (by decide)⟩

/-- The concrete state refuting C8 as stated: IOCR base 0, so every port
trivially matches the base field, with external port 0x40 holding 0x55. -/
def c8state : State := {iospace := fun p => if p = 0x40 then 0x55 else 0}

/-- Counterexample to C8 as stated: with IOCR = 0 the base-matching
condition holds for port 0x40, yet the access is not serviced by the
internal register bank — the read returns the external value 0x55
unchanged and the write changes nothing but the external space. -/
theorem C8_io_access_counterexample :
    (0x40 &&& (c8state.iocr &&& 0xc0) = c8state.iocr &&& 0xc0) ∧
    (z180_readcontrol c8state 0x40).1 = 0x55 ∧
    z180_writecontrol c8state 0x40 0x77 =
      {c8state with iospace := upd c8state.iospace 0x40 0x77} := by
  refine ⟨by decide, ?_, ?_⟩
  · simp only [z180_readcontrol]
    rw [rcInternal_hi _ _ _ (by decide)]
    rfl
  · simp only [z180_writecontrol]
    rw [wcInternal_hi _ _ _ (by decide)]
    rfl


/-! ## C4: channel-0 burst transfer with count 4 -/

/-- Source-address stepping selected by the SM field (bits 2-3 of DMODE). -/
def srcStepOf (m : Nat) : Nat → Nat :=
  if m = 0x00 then inc32 else if m = 0x04 then dec32 else fun a => a

/-- Destination-address stepping selected by the DM field (bits 4-5). -/
def dstStepOf (m : Nat) : Nat → Nat :=
  if m = 0x00 then inc32 else if m = 0x10 then dec32 else fun a => a

/-- `n`-fold application of an address step. -/
def stepN (f : Nat → Nat) : Nat → Nat → Nat
  | 0, a => a
  | n + 1, a => stepN f n (f a)

/-- Reference form of `n` memory-to-memory transfer steps: each step
writes the byte at the current source address to the current destination
address and advances both. -/
def memmemRun (sf df : Nat → Nat) : Nat → (Nat → Nat) → Nat → Nat → ((Nat → Nat) × Nat × Nat)
  | 0, m, sar, dar => (m, sar, dar)
  | n + 1, m, sar, dar => memmemRun sf df n (upd m dar (m sar)) (sf sar) (df dar)

/-- One `z180_dma0` loop pass in a (non-reserved) memory-to-memory mode
moves one byte and steps the addresses per the SM/DM fields.  The
combination SM fixed / DM fixed (`0x28`) is reserved in the source and
excluded. -/
theorem dma0iter_memmem (sm dm : Nat)
    (hsm : sm = 0x00 ∨ sm = 0x04 ∨ sm = 0x08) (hdm : dm = 0x00 ∨ dm = 0x10 ∨ dm = 0x20)
    (hres : ¬(sm = 0x08 ∧ dm = 0x20))
    (s : State) (sar dar bcr : Nat) (hmd : s.dmode &&& 0x3c = sm ||| dm) :
    dma0iter s sar dar bcr =
      ({s with mem := upd s.mem dar (s.mem sar)}, srcStepOf sm sar, dstStepOf dm dar,
        bcr - 1, 2 * s.mwait, false) := by
  rcases hsm with h | h | h <;> subst h <;> rcases hdm with g | g | g <;> subst g
  · simp [dma0iter, hmd, srcStepOf, dstStepOf]
  · simp [dma0iter, hmd, srcStepOf, dstStepOf]
  · simp [dma0iter, hmd, srcStepOf, dstStepOf]
  · simp [dma0iter, hmd, srcStepOf, dstStepOf]
  · simp [dma0iter, hmd, srcStepOf, dstStepOf]
  · simp [dma0iter, hmd, srcStepOf, dstStepOf]
  · simp [dma0iter, hmd, srcStepOf, dstStepOf]
  · simp [dma0iter, hmd, srcStepOf, dstStepOf]
  · exact absurd ⟨rfl, rfl⟩ hres

/-- Draining the full count in burst mode: `n` loop passes (with `bcr`
starting at `n`) perform exactly `n` byte moves, raise TEND0 on the final
pass and cost `n * (2 * mwait + 6)` cycles, when the budget is never
exceeded on the way. -/
theorem dma0go_drain (sm dm : Nat)
    (hsm : sm = 0x00 ∨ sm = 0x04 ∨ sm = 0x08) (hdm : dm = 0x00 ∨ dm = 0x10 ∨ dm = 0x20)
    (hres : ¬(sm = 0x08 ∧ dm = 0x20)) :
    ∀ (n : Nat), 1 ≤ n → ∀ (s : State) (sar dar cyc : Nat) (maxc : Int),
      s.dmode &&& 0x3c = sm ||| dm →
      (∀ k : Nat, k < n → ((cyc + (k + 1) * (2 * s.mwait + 6) : Nat) : Int) ≤ maxc) →
      dma0go n s sar dar n cyc maxc =
        ({s with mem := (memmemRun (srcStepOf sm) (dstStepOf dm) n s.mem sar dar).1,
                 iol := s.iol ||| 0x20000},
         (memmemRun (srcStepOf sm) (dstStepOf dm) n s.mem sar dar).2.1,
         (memmemRun (srcStepOf sm) (dstStepOf dm) n s.mem sar dar).2.2,
         0, cyc + n * (2 * s.mwait + 6)) := by
  intro n
  induction n with
  | zero => intro h; exact absurd h (by omega)
  | succ n ih =>
    intro _ s sar dar cyc maxc hmd hbud
    by_cases hn : n = 0
    · subst hn
      have hb := hbud 0 (by omega)
      rw [dma0go]
      simp only []
      rw [if_pos trivial]
      have hmd2 : ({s with iol := s.iol ||| 0x20000} : State).dmode &&& 0x3c = sm ||| dm := hmd
      rw [dma0iter_memmem sm dm hsm hdm hres _ _ _ _ hmd2]
      simp only []
      rw [if_neg (by omega)]
      simp [dma0go, memmemRun]
      omega
    · have h1n : 1 ≤ n := by omega
      have hb := hbud 0 (by omega)
      rw [dma0go]
      rw [if_neg (show ¬(n + 1 = 1) by omega)]
      rw [dma0iter_memmem sm dm hsm hdm hres _ _ _ _ hmd]
      simp only []
      rw [if_neg (by omega)]
      rw [if_neg (show ¬((false : Bool) = true) from by decide)]
      simp only [Nat.add_sub_cancel]
      rw [ih h1n {s with mem := upd s.mem dar (s.mem sar)}
        (srcStepOf sm sar) (dstStepOf dm dar) (cyc + 2 * s.mwait + 6) maxc
        (by simpa using hmd)
        (by intro k hk
            show ((cyc + 2 * s.mwait + 6 + (k + 1) * (2 * s.mwait + 6) : Nat) : Int) ≤ maxc
            have heq : cyc + 2 * s.mwait + 6 + (k + 1) * (2 * s.mwait + 6)
                = cyc + (k + 1 + 1) * (2 * s.mwait + 6) := by ring
            rw [heq]
            exact hbud (k + 1) (by omega))]
      simp [memmemRun]
      ring

/-- C4: with channel 0 enabled, configured memory-to-memory in burst mode
with byte count 4, and a sufficient cycle budget, one `z180_dma0` dispatch
copies exactly 4 bytes from the source to the destination (each address
stepped per its SM/DM increment, decrement or fixed mode, excluding the
reserved fixed-to-fixed combination), leaves the remaining count at 0,
raises the TEND0 transfer-end output during the final pass (left cleared,
i.e. deasserted, after the terminal-count epilogue), clears DE0, and
queues the DMA0 completion interrupt exactly when DIE0 and IFF1 are
set. -/
theorem C4_dma0_burst (s : State) (sm dm : Nat) (maxc : Int)
    (hsm : sm = 0x00 ∨ sm = 0x04 ∨ sm = 0x08)
    (hdm : dm = 0x00 ∨ dm = 0x10 ∨ dm = 0x20)
    (hres : ¬(sm = 0x08 ∧ dm = 0x20))
    (hmode : s.dmode = sm ||| dm ||| 0x02)
    (hbcr : s.dma_bcr0 = 4)
    (hde : s.dstat &&& 0x40 = 0x40)
    (hbud : ((4 * (2 * s.mwait + 6) : Nat) : Int) ≤ maxc)
    (hdisj : ∀ i : Nat, i < 4 → ∀ j : Nat, j < 4 →
        stepN (dstStepOf dm) j s.dma_dar0 ≠ stepN (srcStepOf sm) i s.dma_sar0) :
    (z180_dma0 s maxc).1.dma_bcr0 = 0 ∧
    (z180_dma0 s maxc).1.dma_sar0 = stepN (srcStepOf sm) 4 s.dma_sar0 ∧
    (z180_dma0 s maxc).1.dma_dar0 = stepN (dstStepOf dm) 4 s.dma_dar0 ∧
    (z180_dma0 s maxc).1.iol &&& 0x20000 = 0 ∧
    (z180_dma0 s maxc).1.dstat &&& 0x40 = 0 ∧
    (z180_dma0 s maxc).1.int_pending =
      (if s.dstat &&& 0x04 ≠ 0 ∧ s.IFF1 = true then upd s.int_pending 7 true
       else s.int_pending) ∧
    (z180_dma0 s maxc).1.mem =
      upd (upd (upd (upd s.mem
          (stepN (dstStepOf dm) 0 s.dma_dar0) (s.mem (stepN (srcStepOf sm) 0 s.dma_sar0)))
          (stepN (dstStepOf dm) 1 s.dma_dar0) (s.mem (stepN (srcStepOf sm) 1 s.dma_sar0)))
          (stepN (dstStepOf dm) 2 s.dma_dar0) (s.mem (stepN (srcStepOf sm) 2 s.dma_sar0)))
          (stepN (dstStepOf dm) 3 s.dma_dar0) (s.mem (stepN (srcStepOf sm) 3 s.dma_sar0)) := by
  have hmd : s.dmode &&& 0x3c = sm ||| dm := by
    rcases hsm with h | h | h <;> rcases hdm with g | g | g <;> subst h <;> subst g <;>
      rw [hmode] <;> decide
  have hm2 : ¬ s.dmode &&& 0x02 = 0 := by
    rcases hsm with h | h | h <;> rcases hdm with g | g | g <;> subst h <;> subst g <;>
      rw [hmode] <;> decide
  have hde' : ¬ s.dstat &&& 0x40 = 0 := by omega
  have hrun := dma0go_drain sm dm hsm hdm hres 4 (by omega) s s.dma_sar0 s.dma_dar0 0 maxc hmd
      (by intro k hk
          have h1 : (k + 1) * (2 * s.mwait + 6) ≤ 4 * (2 * s.mwait + 6) :=
            Nat.mul_le_mul (by omega) (Nat.le_refl _)
          have h2 : (0 + (k + 1) * (2 * s.mwait + 6) : Nat) ≤ 4 * (2 * s.mwait + 6) := by
            rw [Nat.zero_add]; exact h1
          calc ((0 + (k + 1) * (2 * s.mwait + 6) : Nat) : Int)
              ≤ ((4 * (2 * s.mwait + 6) : Nat) : Int) := by exact_mod_cast h2
            _ ≤ maxc := hbud)
  have h10 : srcStepOf sm s.dma_sar0 ≠ s.dma_dar0 := by
    have := (hdisj 1 (by omega) 0 (by omega)).symm
    simpa [stepN] using this
  have h20 : srcStepOf sm (srcStepOf sm s.dma_sar0) ≠ s.dma_dar0 := by
    have := (hdisj 2 (by omega) 0 (by omega)).symm
    simpa [stepN] using this
  have h21 : srcStepOf sm (srcStepOf sm s.dma_sar0) ≠ dstStepOf dm s.dma_dar0 := by
    have := (hdisj 2 (by omega) 1 (by omega)).symm
    simpa [stepN] using this
  have h30 : srcStepOf sm (srcStepOf sm (srcStepOf sm s.dma_sar0)) ≠ s.dma_dar0 := by
    have := (hdisj 3 (by omega) 0 (by omega)).symm
    simpa [stepN] using this
  have h31 : srcStepOf sm (srcStepOf sm (srcStepOf sm s.dma_sar0)) ≠
      dstStepOf dm s.dma_dar0 := by
    have := (hdisj 3 (by omega) 1 (by omega)).symm
    simpa [stepN] using this
  have h32 : srcStepOf sm (srcStepOf sm (srcStepOf sm s.dma_sar0)) ≠
      dstStepOf dm (dstStepOf dm s.dma_dar0) := by
    have := (hdisj 3 (by omega) 2 (by omega)).symm
    simpa [stepN] using this
  simp only [z180_dma0, hbcr]
  rw [if_neg (show ¬((4 : Nat) = 0) from by decide), if_pos hm2, if_neg hde']
  rw [hrun]
  simp [memmemRun, stepN,
    upd_other _ _ _ _ h10, upd_other _ _ _ _ h20, upd_other _ _ _ _ h21,
    upd_other _ _ _ _ h30, upd_other _ _ _ _ h31, upd_other _ _ _ _ h32,
    Nat.and_assoc, show (0xfffdffff : Nat) &&& 0x20000 = 0 from by decide,
    show (0xbf : Nat) &&& 0x40 = 0 from by decide,
    show (0xbf : Nat) &&& 4 = 4 from by decide,
    apply_ite State.int_pending, apply_ite State.iol, apply_ite State.dstat,
    apply_ite State.dma_bcr0, apply_ite State.dma_sar0, apply_ite State.dma_dar0,
    apply_ite State.mem, ite_self]

/-- The concrete configuration witnessing C4: both addresses incrementing,
burst mode, count 4, channel enabled. -/
def c4state : State :=
  {dstat := 0x40, dmode := 0x02, dma_bcr0 := 4, dma_sar0 := 0x100, dma_dar0 := 0x200}

/-- Witness for C4 at `c4state` with budget 100. -/
theorem C4_dma0_burst_witness :
    (z180_dma0 c4state 100).1.dma_bcr0 = 0 ∧
    (z180_dma0 c4state 100).1.dma_sar0 = stepN (srcStepOf 0) 4 c4state.dma_sar0 :=
  ⟨(C4_dma0_burst c4state 0 0 100 (Or.inl rfl) (Or.inl rfl) (by decide) rfl rfl (by decide)
      (by decide) (by decide)).1,
   (C4_dma0_burst c4state 0 0 100 (Or.inl rfl) (Or.inl rfl) (by decide) rfl rfl (by decide)
      (by decide) (by decide)).2.1⟩

end Z180
